import Mathlib

/-!
# Mike Shah playlist tutorials, episodes 5 and 9

A shallow embedding of the two tutorial programs
`cpp/opengl/mike_shah_playlist_tutorials/episode5/main.cpp` and
`cpp/opengl/mike_shah_playlist_tutorials/episode9/main.cpp`.

SDL2, glad and the OpenGL driver are external: every call the programs make
to them is appended to a trace, and every value a call hands back is read
from an `Env`, a table of responses indexed by the call's arguments.  The
C++ globals become the fields of `World`; `exit` and the abort that follows
an uncaught exception become constructors of `Outcome`.
-/

namespace MikeShah

/-! ## Header constants

The sources include `SDL2/SDL.h` and `glad/glad.h` but do not contain them.
The constants the programs use from these headers are given the values they
have there. -/

/-- Modelled from the spec: `SDL_INIT_VIDEO` of the SDL2 header, `0x00000020u`. -/
def SDL_INIT_VIDEO : Nat := 0x00000020
/-- Modelled from the spec: `SDL_WINDOW_OPENGL` of the SDL2 header. -/
def SDL_WINDOW_OPENGL : Nat := 0x00000002
/-- Modelled from the spec: event type `SDL_QUIT` of the SDL2 header. -/
def SDL_QUIT : Nat := 0x100
/-- Modelled from the spec: `SDL_GLattr` enumerator `SDL_GL_DOUBLEBUFFER`. -/
def SDL_GL_DOUBLEBUFFER : Nat := 5
/-- Modelled from the spec: `SDL_GLattr` enumerator `SDL_GL_DEPTH_SIZE`. -/
def SDL_GL_DEPTH_SIZE : Nat := 6
/-- Modelled from the spec: `SDL_GLattr` enumerator `SDL_GL_CONTEXT_MAJOR_VERSION`. -/
def SDL_GL_CONTEXT_MAJOR_VERSION : Nat := 17
/-- Modelled from the spec: `SDL_GLattr` enumerator `SDL_GL_CONTEXT_MINOR_VERSION`. -/
def SDL_GL_CONTEXT_MINOR_VERSION : Nat := 18
/-- Modelled from the spec: `SDL_GLattr` enumerator `SDL_GL_CONTEXT_PROFILE_MASK`. -/
def SDL_GL_CONTEXT_PROFILE_MASK : Nat := 21
/-- Modelled from the spec: `SDL_GL_CONTEXT_PROFILE_CORE` of the SDL2 header. -/
def SDL_GL_CONTEXT_PROFILE_CORE : Int := 1

/-- Modelled from the spec: OpenGL enumerant `GL_FALSE`. -/
def GL_FALSE : Nat := 0
/-- Modelled from the spec: OpenGL enumerant `GL_TRIANGLES`. -/
def GL_TRIANGLES : Nat := 0x0004
/-- Modelled from the spec: OpenGL bit `GL_DEPTH_BUFFER_BIT`. -/
def GL_DEPTH_BUFFER_BIT : Nat := 0x00000100
/-- Modelled from the spec: OpenGL bit `GL_COLOR_BUFFER_BIT`. -/
def GL_COLOR_BUFFER_BIT : Nat := 0x00004000
/-- Modelled from the spec: OpenGL enumerant `GL_CULL_FACE`. -/
def GL_CULL_FACE : Nat := 0x0B44
/-- Modelled from the spec: OpenGL enumerant `GL_DEPTH_TEST`. -/
def GL_DEPTH_TEST : Nat := 0x0B71
/-- Modelled from the spec: OpenGL enumerant `GL_FLOAT`. -/
def GL_FLOAT : Nat := 0x1406
/-- Modelled from the spec: OpenGL enumerant `GL_VENDOR`. -/
def GL_VENDOR : Nat := 0x1F00
/-- Modelled from the spec: OpenGL enumerant `GL_RENDERER`. -/
def GL_RENDERER : Nat := 0x1F01
/-- Modelled from the spec: OpenGL enumerant `GL_VERSION`. -/
def GL_VERSION : Nat := 0x1F02
/-- Modelled from the spec: OpenGL enumerant `GL_ARRAY_BUFFER`. -/
def GL_ARRAY_BUFFER : Nat := 0x8892
/-- Modelled from the spec: OpenGL enumerant `GL_STATIC_DRAW`. -/
def GL_STATIC_DRAW : Nat := 0x88E4
/-- Modelled from the spec: OpenGL enumerant `GL_FRAGMENT_SHADER`. -/
def GL_FRAGMENT_SHADER : Nat := 0x8B30
/-- Modelled from the spec: OpenGL enumerant `GL_VERTEX_SHADER`. -/
def GL_VERTEX_SHADER : Nat := 0x8B31
/-- Modelled from the spec: OpenGL enumerant `GL_COMPILE_STATUS`. -/
def GL_COMPILE_STATUS : Nat := 0x8B81
/-- Modelled from the spec: OpenGL enumerant `GL_INFO_LOG_LENGTH`. -/
def GL_INFO_LOG_LENGTH : Nat := 0x8B84
/-- Modelled from the spec: OpenGL enumerant `GL_SHADING_LANGUAGE_VERSION`. -/
def GL_SHADING_LANGUAGE_VERSION : Nat := 0x8B8C
/-- Modelled from the spec: `sizeof(GLfloat)`, four bytes. -/
def sizeofGLfloat : Nat := 4

/-! ## Calls, environment, world -/

/-- One call into SDL2, glad or OpenGL, with the arguments it was given.
Pointers and object names are numbers, `0` being `nullptr` or "no object";
a `float` is the rational its binary32 value equals; the data handed to
`glBufferData` is the sequence of floats behind the pointer.
`glCompileShader` is part of the interface although neither program calls it. -/
inductive Call where
  | SDL_Init (flags : Nat)
  | SDL_GL_SetAttribute (attr : Nat) (value : Int)
  | SDL_CreateWindow (title : String) (x y w h : Int) (flags : Nat)
  | SDL_GL_CreateContext (window : Nat)
  | gladLoadGLLoader
  | glGetString (name : Nat)
  | glGenVertexArrays (n : Nat)
  | glBindVertexArray (array : Nat)
  | glGenBuffers (n : Nat)
  | glBindBuffer (target buffer : Nat)
  | glBufferData (target size : Nat) (data : List Rat) (usage : Nat)
  | glEnableVertexAttribArray (index : Nat)
  | glVertexAttribPointer (index : Nat) (size : Int) (type normalized : Nat)
      (stride : Int) (pointer : Nat)
  | glDisableVertexAttribArray (index : Nat)
  | glCreateShader (type : Nat)
  | glShaderSource (shader : Nat) (count : Int) (source : String)
  | glCompileShader (shader : Nat)
  | glGetShaderiv (shader pname : Nat)
  | glGetShaderInfoLog (shader : Nat) (bufSize : Int)
  | glDeleteShader (shader : Nat)
  | glCreateProgram
  | glAttachShader (program shader : Nat)
  | glLinkProgram (program : Nat)
  | glValidateProgram (program : Nat)
  | glDisable (cap : Nat)
  | glViewport (x y width height : Int)
  | glClearColor (red green blue alpha : Rat)
  | glClear (mask : Nat)
  | glUseProgram (program : Nat)
  | glDrawArrays (mode : Nat) (first count : Int)
  | SDL_PollEvent
  | SDL_GL_SwapWindow (window : Nat)
  | SDL_DestroyWindow (window : Nat)
  | SDL_Quit
  deriving DecidableEq

/-- What the libraries and the driver answer.  Each field gives the value a
call hands back for the arguments it receives.  `glGetShaderInfoLog shader n`
is the C string the driver leaves in a buffer of `n` characters, `n` positive.
`glLinkProgram program` tells whether linking that program succeeds; the
programs never ask for it, the driver keeps it.  `uninitialized` is the
content of a local `GLuint` that was never assigned, and `strayBytes` is what
a C-string read finds when it starts at a zero-size array, memory the program
has not written. -/
structure Env where
  SDL_Init : Nat → Int
  SDL_CreateWindow : String → Int → Int → Int → Int → Nat → Nat
  SDL_GL_CreateContext : Nat → Nat
  gladLoadGLLoader : Int
  glGetString : Nat → String
  glGenVertexArrays : Nat → Nat
  glGenBuffers : Nat → Nat
  glCreateShader : Nat → Nat
  glGetShaderiv : Nat → Nat → Int
  glGetShaderInfoLog : Nat → Int → String
  glCreateProgram : Nat
  glLinkProgram : Nat → Bool
  uninitialized : Nat
  strayBytes : String

/-- An entry of the SDL event queue; only its `type` is read. -/
structure SDL_Event where
  type : Nat
  deriving DecidableEq

/-- The globals of the programs together with what the process has done so
far: the calls issued (oldest first) and the two output streams.  Episode 5
has only the first four globals and `gQuit`. -/
structure World where
  gScreenWidth : Int
  gScreenHeight : Int
  gGraphicsApplicationWindow : Nat
  gOpenGLContext : Nat
  gVertexArrayObject : Nat
  gVertexBufferObject : Nat
  gGraphicsPipelineShaderProgram : Nat
  gQuit : Bool
  trace : List Call
  stdout : String
  stderr : String

/-- The globals as their initialisers leave them, before `main` runs. -/
def World.init : World :=
  { gScreenWidth := 640
    gScreenHeight := 480
    gGraphicsApplicationWindow := 0
    gOpenGLContext := 0
    gVertexArrayObject := 0
    gVertexBufferObject := 0
    gGraphicsPipelineShaderProgram := 0
    gQuit := false
    trace := []
    stdout := ""
    stderr := "" }

/-- Record a call. -/
def World.call (w : World) (c : Call) : World :=
  { w with trace := w.trace ++ [c] }

/-- Write to `std::cout`. -/
def World.cout (w : World) (s : String) : World :=
  { w with stdout := w.stdout ++ s }

/-- Write to `std::cerr`. -/
def World.cerr (w : World) (s : String) : World :=
  { w with stderr := w.stderr ++ s }

/-- A function either returns to its caller, ends the process with `exit`, or
throws an exception that nothing catches, upon which `std::terminate` aborts
the process. -/
inductive Outcome (α : Type) where
  | ret (a : α) (w : World)
  | exit (code : Int) (w : World)
  | abort (w : World)

/-- How a `while(!gQuit)` loop stands once the supplied event batches are
used up: it has left the loop, or it would go on polling. -/
inductive LoopResult where
  | finished (w : World)
  | starved (w : World)

/-- How a whole program stands: `main` returned, the process was ended by
`exit`, it was aborted over an uncaught exception, or the frame loop is still
running. -/
inductive Run where
  | returned (code : Int) (w : World)
  | exited (code : Int) (w : World)
  | aborted (w : World)
  | running (w : World)

/-- The code a function passed to `exit`, if it ended the process that way. -/
def Outcome.exitCode {α : Type} : Outcome α → Option Int
  | .ret _ _ => none
  | .exit code _ => some code
  | .abort _ => none

/-- The world an outcome carries. -/
def Outcome.world {α : Type} : Outcome α → World
  | .ret _ w => w
  | .exit _ w => w
  | .abort w => w

/-- Sequencing of two steps: the second runs only if the first returned. -/
def Outcome.bind {α β : Type} (first : Outcome α) (next : α → World → Outcome β) :
    Outcome β :=
  match first with
  | .ret a w => next a w
  | .exit code w => .exit code w
  | .abort w => .abort w

/-- The world a loop result carries. -/
def LoopResult.world : LoopResult → World
  | .finished w => w
  | .starved w => w

/-- The world a run carries. -/
def Run.world : Run → World
  | .returned _ w => w
  | .exited _ w => w
  | .aborted w => w
  | .running w => w

/-! ## Episode 5 -/

namespace Episode5

/-- Embeds `GetOpenGLVersionInfo` of episode5/main.cpp. -/
def GetOpenGLVersionInfo (env : Env) (w : World) : World :=
  let w := (w.call (.glGetString GL_VENDOR)).cout
    ("Vendor: " ++ env.glGetString GL_VENDOR ++ "\n")
  let w := (w.call (.glGetString GL_RENDERER)).cout
    ("Renderer: " ++ env.glGetString GL_RENDERER ++ "\n")
  let w := (w.call (.glGetString GL_VERSION)).cout
    ("Version: " ++ env.glGetString GL_VERSION ++ "\n")
  (w.call (.glGetString GL_SHADING_LANGUAGE_VERSION)).cout
    ("Shading Language: " ++ env.glGetString GL_SHADING_LANGUAGE_VERSION ++ "\n")

/-- The argument expression of the `SDL_Init` call, `SDL_INIT_VIDEO < 0`:
a comparison, whose `bool` value is converted to the `Uint32` parameter. -/
def sdlInitFlags : Nat := if SDL_INIT_VIDEO < 0 then 1 else 0

/-- Embeds `InitializeProgram` of episode5/main.cpp. -/
def InitializeProgram (env : Env) (w : World) : Outcome Unit :=
  let w := w.call (.SDL_Init sdlInitFlags)
  if env.SDL_Init sdlInitFlags ≠ 0 then
    .exit 1 (w.cerr "SDL2 could not initialize video subsystem\n")
  else
    let w := w.call (.SDL_GL_SetAttribute SDL_GL_CONTEXT_MAJOR_VERSION 4)
    let w := w.call (.SDL_GL_SetAttribute SDL_GL_CONTEXT_MINOR_VERSION 1)
    let w := w.call (.SDL_GL_SetAttribute SDL_GL_CONTEXT_PROFILE_MASK SDL_GL_CONTEXT_PROFILE_CORE)
    let w := w.call (.SDL_GL_SetAttribute SDL_GL_DOUBLEBUFFER 1)
    let w := w.call (.SDL_GL_SetAttribute SDL_GL_DEPTH_SIZE 24)
    let w := w.call
      (.SDL_CreateWindow "White rabbit" 0 0 w.gScreenWidth w.gScreenHeight SDL_WINDOW_OPENGL)
    let w := { w with gGraphicsApplicationWindow :=
      env.SDL_CreateWindow "White rabbit" 0 0 w.gScreenWidth w.gScreenHeight SDL_WINDOW_OPENGL }
    if w.gGraphicsApplicationWindow = 0 then
      .exit 1 (w.cerr "Could not create window\n")
    else
      let w := w.call (.SDL_GL_CreateContext w.gGraphicsApplicationWindow)
      let w := { w with gOpenGLContext := env.SDL_GL_CreateContext w.gGraphicsApplicationWindow }
      if w.gOpenGLContext = 0 then
        .exit 1 (w.cerr "Could not create opengl context\n")
      else
        let w := w.call .gladLoadGLLoader
        if env.gladLoadGLLoader = 0 then
          .exit 1 (w.cerr "Could not start glad function\n")
        else
          .ret () (GetOpenGLVersionInfo env w)

/-- Embeds `Input` of episode5/main.cpp.  The argument is the pending event queue;
every `SDL_PollEvent` takes its head, and the call that finds it empty
returns 0 and ends the loop.  The second component is what is left of the
queue when `Input` returns. -/
def Input : List SDL_Event → World → World × List SDL_Event
  | [], w => (w.call .SDL_PollEvent, [])
  | event :: queue, w =>
    let w := w.call .SDL_PollEvent
    if event.type = SDL_QUIT then
      Input queue { w.cout "Goodbye\n" with gQuit := true }
    else
      Input queue w

/-- Embeds `PreDraw` of episode5/main.cpp: empty. -/
def PreDraw (w : World) : World := w

/-- Embeds `Draw` of episode5/main.cpp: empty. -/
def Draw (w : World) : World := w

/-- Embeds `MainLoop` of episode5/main.cpp.  The argument lists, for each
iteration in turn, the events pending when that iteration polls. -/
def MainLoop : List (List SDL_Event) → World → LoopResult
  | [], w => if w.gQuit then .finished w else .starved w
  | batch :: later, w =>
    if w.gQuit then .finished w
    else
      let w := (Input batch w).1
      let w := PreDraw w
      let w := Draw w
      let w := w.call (.SDL_GL_SwapWindow w.gGraphicsApplicationWindow)
      MainLoop later w

/-- Embeds `CleanUp` of episode5/main.cpp. -/
def CleanUp (w : World) : World :=
  let w := w.call (.SDL_DestroyWindow w.gGraphicsApplicationWindow)
  w.call .SDL_Quit

/-- Embeds `main` of episode5/main.cpp. -/
def main (env : Env) (batches : List (List SDL_Event)) : Run :=
  match InitializeProgram env World.init with
  | .exit code w => .exited code w
  | .abort w => .aborted w
  | .ret _ w =>
    match MainLoop batches w with
    | .starved w => .running w
    | .finished w => .returned 0 (CleanUp w)

end Episode5

/-! ## Episode 9 -/

namespace Episode9

/-- Embeds `gVertexShaderSource` of episode9/main.cpp. -/
def gVertexShaderSource : String :=
  "#version 330 core\n" ++
  "in vec4 position;\n" ++
  "void main()\n" ++
  "\x7b\n" ++
  "   gl_Position = vec4(postion.x, position.y, position.z, 1.0);\n" ++
  "\x7d\n"

/-- Embeds `gFragmentShaderSource` of episode9/main.cpp. -/
def gFragmentShaderSource : String :=
  "#version 330 core\n" ++
  "out vec4 color;\n" ++
  "void main()\n" ++
  "\x7b\n" ++
  "   color = vec4(1.0f, 0.5f, 0.0f, 1.0f);\n" ++
  "\x7d\n"

/-- Embeds `GetOpenGLVersionInfo` of episode9/main.cpp. -/
def GetOpenGLVersionInfo (env : Env) (w : World) : World :=
  let w := (w.call (.glGetString GL_VENDOR)).cout
    ("Vendor: " ++ env.glGetString GL_VENDOR ++ "\n")
  let w := (w.call (.glGetString GL_RENDERER)).cout
    ("Renderer: " ++ env.glGetString GL_RENDERER ++ "\n")
  let w := (w.call (.glGetString GL_VERSION)).cout
    ("Version: " ++ env.glGetString GL_VERSION ++ "\n")
  (w.call (.glGetString GL_SHADING_LANGUAGE_VERSION)).cout
    ("Shading Language: " ++ env.glGetString GL_SHADING_LANGUAGE_VERSION ++ "\n")

/-- The argument expression of the `SDL_Init` call, `SDL_INIT_VIDEO < 0`:
a comparison, whose `bool` value is converted to the `Uint32` parameter. -/
def sdlInitFlags : Nat := if SDL_INIT_VIDEO < 0 then 1 else 0

/-- Embeds `InitializeProgram` of episode9/main.cpp. -/
def InitializeProgram (env : Env) (w : World) : Outcome Unit :=
  let w := w.call (.SDL_Init sdlInitFlags)
  if env.SDL_Init sdlInitFlags ≠ 0 then
    .exit 1 (w.cerr "SDL2 could not initialize video subsystem\n")
  else
    let w := w.call (.SDL_GL_SetAttribute SDL_GL_CONTEXT_MAJOR_VERSION 4)
    let w := w.call (.SDL_GL_SetAttribute SDL_GL_CONTEXT_MINOR_VERSION 1)
    let w := w.call (.SDL_GL_SetAttribute SDL_GL_CONTEXT_PROFILE_MASK SDL_GL_CONTEXT_PROFILE_CORE)
    let w := w.call (.SDL_GL_SetAttribute SDL_GL_DOUBLEBUFFER 1)
    let w := w.call (.SDL_GL_SetAttribute SDL_GL_DEPTH_SIZE 24)
    let w := w.call
      (.SDL_CreateWindow "White rabbit" 0 0 w.gScreenWidth w.gScreenHeight SDL_WINDOW_OPENGL)
    let w := { w with gGraphicsApplicationWindow :=
      env.SDL_CreateWindow "White rabbit" 0 0 w.gScreenWidth w.gScreenHeight SDL_WINDOW_OPENGL }
    if w.gGraphicsApplicationWindow = 0 then
      .exit 1 (w.cerr "Could not create window\n")
    else
      let w := w.call (.SDL_GL_CreateContext w.gGraphicsApplicationWindow)
      let w := { w with gOpenGLContext := env.SDL_GL_CreateContext w.gGraphicsApplicationWindow }
      if w.gOpenGLContext = 0 then
        .exit 1 (w.cerr "Could not create opengl context\n")
      else
        let w := w.call .gladLoadGLLoader
        if env.gladLoadGLLoader = 0 then
          .exit 1 (w.cerr "Could not start glad function\n")
        else
          .ret () (GetOpenGLVersionInfo env w)

/-- The local `vertexPosition` of `VertexSpecification`: the binary32 values of
the literals `-0.8f`, `0.8f` and `0.0f`, the nearest `float` to 0.8 being
13421773 / 2^24. -/
def vertexPosition : List Rat :=
  [ -13421773 / 16777216, -13421773 / 16777216, 0,
    13421773 / 16777216, -13421773 / 16777216, 0,
    0, 13421773 / 16777216, 0 ]

/-- Embeds `VertexSpecification` of episode9/main.cpp. -/
def VertexSpecification (env : Env) (w : World) : World :=
  let w := w.call (.glGenVertexArrays 1)
  let w := { w with gVertexArrayObject := env.glGenVertexArrays 1 }
  let w := w.call (.glBindVertexArray w.gVertexArrayObject)
  let w := w.call (.glGenBuffers 1)
  let w := { w with gVertexBufferObject := env.glGenBuffers 1 }
  let w := w.call (.glBindBuffer GL_ARRAY_BUFFER w.gVertexBufferObject)
  let w := w.call
    (.glBufferData GL_ARRAY_BUFFER (vertexPosition.length * sizeofGLfloat) vertexPosition
      GL_STATIC_DRAW)
  let w := w.call (.glEnableVertexAttribArray 0)
  let w := w.call (.glVertexAttribPointer 0 3 GL_FLOAT GL_FALSE 0 0)
  let w := w.call (.glBindVertexArray 0)
  w.call (.glDisableVertexAttribArray 0)

/-- Embeds `CompileShader` of episode9/main.cpp.  For a `type` that is neither of
the two stages the local `shaderObject` is never assigned.  In the failure
branch `new char[log_length]` throws `std::bad_array_new_length` for a
negative length, which nothing catches; for length 0 the array has no
element, `glGetShaderInfoLog` writes nothing, and the stream reads its C
string from past the end of the array; for a positive length the stream reads
the C string the driver left in the buffer. -/
def CompileShader (env : Env) (type : Nat) (sourceCode : String) (w : World) : Outcome Nat :=
  let created : Nat × World :=
    if type = GL_VERTEX_SHADER then
      (env.glCreateShader GL_VERTEX_SHADER, w.call (.glCreateShader GL_VERTEX_SHADER))
    else if type = GL_FRAGMENT_SHADER then
      (env.glCreateShader GL_FRAGMENT_SHADER, w.call (.glCreateShader GL_FRAGMENT_SHADER))
    else
      (env.uninitialized, w)
  let shaderObject := created.1
  let w := created.2
  let w := w.call (.glShaderSource shaderObject 1 sourceCode)
  let w := w.call (.glGetShaderiv shaderObject GL_COMPILE_STATUS)
  let result := env.glGetShaderiv shaderObject GL_COMPILE_STATUS
  if result = GL_FALSE then
    let w := w.call (.glGetShaderiv shaderObject GL_INFO_LOG_LENGTH)
    let log_length := env.glGetShaderiv shaderObject GL_INFO_LOG_LENGTH
    if log_length < 0 then
      .abort w
    else
      let w := w.call (.glGetShaderInfoLog shaderObject log_length)
      let errorMessages :=
        if log_length = 0 then env.strayBytes
        else env.glGetShaderInfoLog shaderObject log_length
      let w :=
        if type = GL_VERTEX_SHADER then
          w.cout ("ERROR: GL_VERTEX_SHADER compilation failed!\n " ++ errorMessages ++ "\n")
        else if type = GL_FRAGMENT_SHADER then
          w.cout ("ERROR: GL_FRAGMENT_SHADER compilation failed!\n " ++ errorMessages ++ "\n")
        else
          w
      let w := w.call (.glDeleteShader shaderObject)
      .ret 0 w
  else
    .ret shaderObject w

/-- Embeds `CreateShaderProgram` of episode9/main.cpp. -/
def CreateShaderProgram (env : Env) (vertexShaderSource fragmentShaderSource : String)
    (w : World) : Outcome Nat :=
  let w := w.call .glCreateProgram
  let programObject := env.glCreateProgram
  (CompileShader env GL_VERTEX_SHADER vertexShaderSource w).bind fun myVertexShader w =>
  (CompileShader env GL_FRAGMENT_SHADER fragmentShaderSource w).bind fun myFragmentShader w =>
    let w := w.call (.glAttachShader programObject myVertexShader)
    let w := w.call (.glAttachShader programObject myFragmentShader)
    let w := w.call (.glLinkProgram programObject)
    let w := w.call (.glValidateProgram programObject)
    .ret programObject w

/-- Embeds `CreateGraphicsPipeline` of episode9/main.cpp. -/
def CreateGraphicsPipeline (env : Env) (w : World) : Outcome Unit :=
  (CreateShaderProgram env gVertexShaderSource gFragmentShaderSource w).bind
    fun programObject w => .ret () { w with gGraphicsPipelineShaderProgram := programObject }

/-- Embeds `Input` of episode9/main.cpp.  The argument is the pending event queue;
every `SDL_PollEvent` takes its head, and the call that finds it empty
returns 0 and ends the loop.  The second component is what is left of the
queue when `Input` returns. -/
def Input : List SDL_Event → World → World × List SDL_Event
  | [], w => (w.call .SDL_PollEvent, [])
  | event :: queue, w =>
    let w := w.call .SDL_PollEvent
    if event.type = SDL_QUIT then
      Input queue { w.cout "Goodbye\n" with gQuit := true }
    else
      Input queue w

/-- Embeds `PreDraw` of episode9/main.cpp. -/
def PreDraw (w : World) : World :=
  let w := w.call (.glDisable GL_DEPTH_TEST)
  let w := w.call (.glDisable GL_CULL_FACE)
  let w := w.call (.glViewport 0 0 w.gScreenWidth w.gScreenHeight)
  let w := w.call (.glClearColor 1 1 0 1)
  let w := w.call (.glClear (GL_DEPTH_BUFFER_BIT ||| GL_COLOR_BUFFER_BIT))
  w.call (.glUseProgram w.gGraphicsPipelineShaderProgram)

/-- Embeds `Draw` of episode9/main.cpp. -/
def Draw (w : World) : World :=
  let w := w.call (.glBindVertexArray w.gVertexArrayObject)
  let w := w.call (.glBindBuffer GL_ARRAY_BUFFER w.gVertexBufferObject)
  let w := w.call (.glDrawArrays GL_TRIANGLES 0 3)
  w.call (.glUseProgram 0)

/-- Embeds `MainLoop` of episode9/main.cpp.  The argument lists, for each
iteration in turn, the events pending when that iteration polls. -/
def MainLoop : List (List SDL_Event) → World → LoopResult
  | [], w => if w.gQuit then .finished w else .starved w
  | batch :: later, w =>
    if w.gQuit then .finished w
    else
      let w := (Input batch w).1
      let w := PreDraw w
      let w := Draw w
      let w := w.call (.SDL_GL_SwapWindow w.gGraphicsApplicationWindow)
      MainLoop later w

/-- Embeds `CleanUp` of episode9/main.cpp. -/
def CleanUp (w : World) : World :=
  let w := w.call (.SDL_DestroyWindow w.gGraphicsApplicationWindow)
  w.call .SDL_Quit

/-- Embeds `main` of episode9/main.cpp. -/
def main (env : Env) (batches : List (List SDL_Event)) : Run :=
  match InitializeProgram env World.init with
  | .exit code w => .exited code w
  | .abort w => .aborted w
  | .ret _ w =>
    let w := VertexSpecification env w
    match CreateGraphicsPipeline env w with
    | .exit code w => .exited code w
    | .abort w => .aborted w
    | .ret _ w =>
      match MainLoop batches w with
      | .starved w => .running w
      | .finished w => .returned 0 (CleanUp w)

end Episode9

/-! ## Vocabulary of the properties -/

/-- The calls a step issued: what `after` has in its trace beyond `before`. -/
def issued (before after : World) : List Call :=
  after.trace.drop before.trace.length

/-- Whether a batch of pending events holds a quit event. -/
def hasQuit (batch : List SDL_Event) : Bool :=
  batch.any (fun event => decide (event.type = SDL_QUIT))

/-- A driver under which every bootstrap step succeeds, both stages report
a successful compile, the program links, and the generated object names are
nonzero. -/
def Env.sample : Env :=
  { SDL_Init := fun _ => 0
    SDL_CreateWindow := fun _ _ _ _ _ _ => 7
    SDL_GL_CreateContext := fun _ => 9
    gladLoadGLLoader := 1
    glGetString := fun _ => "n/a"
    glGenVertexArrays := fun _ => 1
    glGenBuffers := fun _ => 1
    glCreateShader := fun type => if type = GL_VERTEX_SHADER then 1 else 2
    glGetShaderiv := fun _ _ => 1
    glGetShaderInfoLog := fun _ _ => ""
    glCreateProgram := 3
    glLinkProgram := fun _ => true
    uninitialized := 0
    strayBytes := "@#" }

/-- The four steps of the bootstrap. -/
inductive BootStep where
  | sdlInit
  | createWindow
  | createContext
  | loadFunctions
  deriving DecidableEq

/-- The diagnostic the source prints for each step. -/
def BootStep.diagnostic : BootStep → String
  | .sdlInit => "SDL2 could not initialize video subsystem"
  | .createWindow => "Could not create window"
  | .createContext => "Could not create opengl context"
  | .loadFunctions => "Could not start glad function"

/-- The window the driver hands to the bootstrap. -/
def bootWindow (env : Env) : Nat :=
  env.SDL_CreateWindow "White rabbit" 0 0 640 480 SDL_WINDOW_OPENGL

/-- The first bootstrap step that fails under `env`, in the order the
bootstrap takes them, each called with the arguments the bootstrap gives it
(`SDL_Init` with flags 0): `SDL_Init` fails by returning a negative value,
`SDL_CreateWindow` and `SDL_GL_CreateContext` by returning `nullptr`,
`gladLoadGLLoader` by returning 0. -/
def firstFailure (env : Env) : Option BootStep :=
  if env.SDL_Init 0 < 0 then some .sdlInit
  else if bootWindow env = 0 then some .createWindow
  else if env.SDL_GL_CreateContext (bootWindow env) = 0 then some .createContext
  else if env.gladLoadGLLoader = 0 then some .loadFunctions
  else none

/-- The calls of the bootstrap up to and including the given step. -/
def callsThrough (env : Env) : BootStep → List Call
  | .sdlInit => [.SDL_Init 0]
  | .createWindow =>
    [.SDL_Init 0,
     .SDL_GL_SetAttribute SDL_GL_CONTEXT_MAJOR_VERSION 4,
     .SDL_GL_SetAttribute SDL_GL_CONTEXT_MINOR_VERSION 1,
     .SDL_GL_SetAttribute SDL_GL_CONTEXT_PROFILE_MASK SDL_GL_CONTEXT_PROFILE_CORE,
     .SDL_GL_SetAttribute SDL_GL_DOUBLEBUFFER 1,
     .SDL_GL_SetAttribute SDL_GL_DEPTH_SIZE 24,
     .SDL_CreateWindow "White rabbit" 0 0 640 480 SDL_WINDOW_OPENGL]
  | .createContext =>
    [.SDL_Init 0,
     .SDL_GL_SetAttribute SDL_GL_CONTEXT_MAJOR_VERSION 4,
     .SDL_GL_SetAttribute SDL_GL_CONTEXT_MINOR_VERSION 1,
     .SDL_GL_SetAttribute SDL_GL_CONTEXT_PROFILE_MASK SDL_GL_CONTEXT_PROFILE_CORE,
     .SDL_GL_SetAttribute SDL_GL_DOUBLEBUFFER 1,
     .SDL_GL_SetAttribute SDL_GL_DEPTH_SIZE 24,
     .SDL_CreateWindow "White rabbit" 0 0 640 480 SDL_WINDOW_OPENGL,
     .SDL_GL_CreateContext (bootWindow env)]
  | .loadFunctions =>
    [.SDL_Init 0,
     .SDL_GL_SetAttribute SDL_GL_CONTEXT_MAJOR_VERSION 4,
     .SDL_GL_SetAttribute SDL_GL_CONTEXT_MINOR_VERSION 1,
     .SDL_GL_SetAttribute SDL_GL_CONTEXT_PROFILE_MASK SDL_GL_CONTEXT_PROFILE_CORE,
     .SDL_GL_SetAttribute SDL_GL_DOUBLEBUFFER 1,
     .SDL_GL_SetAttribute SDL_GL_DEPTH_SIZE 24,
     .SDL_CreateWindow "White rabbit" 0 0 640 480 SDL_WINDOW_OPENGL,
     .SDL_GL_CreateContext (bootWindow env),
     .gladLoadGLLoader]

/-- A driver whose `SDL_Init` fails exactly when the video subsystem is
requested and succeeds for every other flags value. -/
def Env.videoFails : Env :=
  { Env.sample with SDL_Init := fun flags => if flags = SDL_INIT_VIDEO then -1 else 0 }

/-- A driver that cannot create a window. -/
def Env.noWindow : Env :=
  { Env.sample with SDL_CreateWindow := fun _ _ _ _ _ _ => 0 }

/-- A single quit event. -/
def quitEvent : SDL_Event := { type := SDL_QUIT }

/-- An event that is not a quit event. -/
def otherEvent : SDL_Event := { type := 0x300 }

/-- The name the diagnostics of `CompileShader` use for a stage. -/
def stageName (type : Nat) : String :=
  if type = GL_VERTEX_SHADER then "GL_VERTEX_SHADER" else "GL_FRAGMENT_SHADER"

/-- A driver as OpenGL behaves towards episode 9: no shader was compiled, so
every compile status is `GL_FALSE`, there is no info log, its length is
reported as 0, and the program does not link. -/
def Env.emptyLog : Env :=
  { Env.sample with
    glGetShaderiv := fun _ _ => 0
    glGetShaderInfoLog := fun _ _ => ""
    glLinkProgram := fun _ => false }

/-- A driver that reports `GL_FALSE` as compile status and a negative length
of the info log. -/
def Env.negativeLog : Env :=
  { Env.sample with
    glGetShaderiv := fun _ pname => if pname = GL_COMPILE_STATUS then 0 else -1
    glLinkProgram := fun _ => false }

/-- The binding state of the OpenGL context the properties speak of: the
bound vertex array and the buffer bound to `GL_ARRAY_BUFFER`. -/
structure GLBinding where
  vertexArray : Nat
  arrayBuffer : Nat
  deriving DecidableEq

/-- The effect of one call on the binding state, as OpenGL defines it:
`glBindVertexArray` sets the bound vertex array, `glBindBuffer` on
`GL_ARRAY_BUFFER` sets the bound array buffer, and no other call the programs
make changes either. -/
def GLBinding.apply (b : GLBinding) : Call → GLBinding
  | .glBindVertexArray array => { b with vertexArray := array }
  | .glBindBuffer target buffer =>
    if target = GL_ARRAY_BUFFER then { b with arrayBuffer := buffer } else b
  | _ => b

/-- The binding state after a sequence of calls. -/
def bindingAfter (b : GLBinding) (calls : List Call) : GLBinding :=
  calls.foldl GLBinding.apply b

/-- The `SDL_PollEvent` calls of one `Input`: one for each pending event and
the one that finds the queue empty. -/
def pollCalls (batch : List SDL_Event) : List Call :=
  List.replicate (batch.length + 1) .SDL_PollEvent

/-- What one `Input` prints: a line for each quit event of the batch. -/
def goodbyes : List SDL_Event → String
  | [] => ""
  | event :: queue =>
    if event.type = SDL_QUIT then "Goodbye\n" ++ goodbyes queue else goodbyes queue

/-- The batches the loop gets to poll: those up to and including the first
one that holds a quit event. -/
def ranBatches : List (List SDL_Event) → List (List SDL_Event)
  | [] => []
  | batch :: later => if hasQuit batch then [batch] else batch :: ranBatches later

/-- The calls of one frame of episode 9 after its input was drained, for the
given viewport size, program, vertex array, buffer and window. -/
def frameCalls (width height : Int) (program vertexArray buffer window : Nat) : List Call :=
  [.glDisable GL_DEPTH_TEST,
   .glDisable GL_CULL_FACE,
   .glViewport 0 0 width height,
   .glClearColor 1 1 0 1,
   .glClear (GL_DEPTH_BUFFER_BIT ||| GL_COLOR_BUFFER_BIT),
   .glUseProgram program,
   .glBindVertexArray vertexArray,
   .glBindBuffer GL_ARRAY_BUFFER buffer,
   .glDrawArrays GL_TRIANGLES 0 3,
   .glUseProgram 0,
   .SDL_GL_SwapWindow window]

/-- Whether a call is a `glClear`. -/
def isClear : Call → Bool
  | .glClear _ => true
  | _ => false

/-- Whether a call is a `glDrawArrays`. -/
def isDraw : Call → Bool
  | .glDrawArrays _ _ _ => true
  | _ => false

/-- Whether a call is an `SDL_GL_SwapWindow`. -/
def isSwap : Call → Bool
  | .SDL_GL_SwapWindow _ => true
  | _ => false

/-- The part of the OpenGL state that decides which program a draw runs: the
programs whose last link succeeded and the program in use, 0 for none. -/
structure GLPrograms where
  linked : List Nat
  current : Nat
  deriving DecidableEq

/-- The state of a fresh context: nothing linked, no program in use. -/
def GLPrograms.fresh : GLPrograms :=
  { linked := [], current := 0 }

/-- The effect of one call on that state, as OpenGL defines it.
`glLinkProgram` makes the program linked if the driver links it and not
linked otherwise.  `glUseProgram(0)` leaves no program in use;
`glUseProgram` of a linked program puts it in use; of a program that is not
linked it raises an error and leaves the program in use unchanged. -/
def GLPrograms.apply (env : Env) (s : GLPrograms) : Call → GLPrograms
  | .glLinkProgram program =>
    if env.glLinkProgram program then { s with linked := program :: s.linked }
    else { s with linked := s.linked.filter (fun p => p ≠ program) }
  | .glUseProgram program =>
    if program = 0 then { s with current := 0 }
    else if program ∈ s.linked then { s with current := program }
    else s
  | _ => s

/-- The state after a sequence of calls. -/
def GLPrograms.after (env : Env) (s : GLPrograms) (calls : List Call) : GLPrograms :=
  calls.foldl (GLPrograms.apply env) s

/-- The program in use at each `glDrawArrays` of a sequence of calls that
starts in state `s`, 0 standing for no program. -/
def programsAtDraws (env : Env) (s : GLPrograms) : List Call → List Nat
  | [] => []
  | c :: rest =>
    (if isDraw c then [s.current] else []) ++ programsAtDraws env (s.apply env c) rest

/-- Whether a call bears on the program state or draws: a link, a use or a
draw. -/
def isProgramCall : Call → Bool
  | .glLinkProgram _ => true
  | .glUseProgram _ => true
  | .glDrawArrays _ _ _ => true
  | _ => false

/-- Whether `CompileShader` for the stage runs into the allocation that
throws: the compile status is `GL_FALSE` and the log length negative. -/
def compileAborts (env : Env) (type : Nat) : Bool :=
  decide (env.glGetShaderiv (env.glCreateShader type) GL_COMPILE_STATUS = GL_FALSE) &&
    decide (env.glGetShaderiv (env.glCreateShader type) GL_INFO_LOG_LENGTH < 0)

/-- The handle `CompileShader` returns for the stage when it returns. -/
def compileValue (env : Env) (type : Nat) : Nat :=
  if env.glGetShaderiv (env.glCreateShader type) GL_COMPILE_STATUS = GL_FALSE then 0
  else env.glCreateShader type

/-- The text the failure branch of `CompileShader` streams after its message:
stray bytes for length 0, the driver's C string for a positive length. -/
def printedLog (env : Env) (type : Nat) : String :=
  if env.glGetShaderiv (env.glCreateShader type) GL_INFO_LOG_LENGTH = 0 then env.strayBytes
  else env.glGetShaderInfoLog (env.glCreateShader type)
    (env.glGetShaderiv (env.glCreateShader type) GL_INFO_LOG_LENGTH)

/-- The calls `CompileShader` issues for the stage. -/
def compileCalls (env : Env) (type : Nat) (sourceCode : String) : List Call :=
  [.glCreateShader type,
   .glShaderSource (env.glCreateShader type) 1 sourceCode,
   .glGetShaderiv (env.glCreateShader type) GL_COMPILE_STATUS] ++
  (if env.glGetShaderiv (env.glCreateShader type) GL_COMPILE_STATUS = GL_FALSE then
    [.glGetShaderiv (env.glCreateShader type) GL_INFO_LOG_LENGTH] ++
    (if env.glGetShaderiv (env.glCreateShader type) GL_INFO_LOG_LENGTH < 0 then []
     else
      [.glGetShaderInfoLog (env.glCreateShader type)
         (env.glGetShaderiv (env.glCreateShader type) GL_INFO_LOG_LENGTH),
       .glDeleteShader (env.glCreateShader type)])
   else [])

/-- What `CompileShader` prints for the stage. -/
def compileOutput (env : Env) (type : Nat) : String :=
  if env.glGetShaderiv (env.glCreateShader type) GL_COMPILE_STATUS = GL_FALSE ∧
      ¬ env.glGetShaderiv (env.glCreateShader type) GL_INFO_LOG_LENGTH < 0 then
    "ERROR: " ++ stageName type ++ " compilation failed!\n " ++ printedLog env type ++ "\n"
  else ""

/-- Whether a character can be part of a word of shader text. -/
def isWordChar (c : Char) : Bool :=
  c.isAlphanum || c = '_'

/-- Split shader text into its words (runs of letters, digits and
underscores) and its other non-blank characters, in order; `word` is the
word being read. -/
def shaderTokens (word : List Char) : List Char → List (List Char)
  | [] => if word = [] then [] else [word]
  | c :: rest =>
    if isWordChar c then shaderTokens (word ++ [c]) rest
    else
      (if word = [] then [] else [word]) ++
        (if c.isWhitespace then [] else [[c]]) ++ shaderTokens [] rest

/-- The words from which a component `.x`, `.y` or `.z` is selected. -/
def componentReads : List (List Char) → List (List Char)
  | [] => []
  | name :: rest =>
    (match rest with
      | dot :: component :: _ =>
        if dot = ['.'] ∧ (component = ['x'] ∨ component = ['y'] ∨ component = ['z'])
        then [name] else []
      | _ => []) ++ componentReads rest

/-- The declarations `qualifier type name;` of the text, as pairs of type and
name. -/
def declarations (qualifier : List Char) : List (List Char) → List (List Char × List Char)
  | [] => []
  | word :: rest =>
    (match rest with
      | type :: name :: semicolon :: _ =>
        if word = qualifier ∧ semicolon = [';'] then [(type, name)] else []
      | _ => []) ++ declarations qualifier rest

/-- The words `componentReads` finds in a shader source. -/
def componentReadsOf (source : String) : List String :=
  (componentReads (shaderTokens [] source.data)).map String.mk

/-- The declarations with the given qualifier in a shader source. -/
def declarationsOf (qualifier source : String) : List (String × String) :=
  (declarations qualifier.data (shaderTokens [] source.data)).map
    (fun d => (String.mk d.1, String.mk d.2))

/-- Whether `CreateShaderProgram` is cut short by one of its two compiles. -/
def buildAborts (env : Env) : Bool :=
  compileAborts env GL_VERTEX_SHADER || compileAborts env GL_FRAGMENT_SHADER

/-- The calls `CreateShaderProgram` issues: the vertex compile, then, unless
that was cut short, the fragment compile, then, unless that was cut short,
the two attachments, the link and the validation. -/
def buildCalls (env : Env) (vertexShaderSource fragmentShaderSource : String) : List Call :=
  [.glCreateProgram] ++ compileCalls env GL_VERTEX_SHADER vertexShaderSource ++
  (if compileAborts env GL_VERTEX_SHADER then []
   else
    compileCalls env GL_FRAGMENT_SHADER fragmentShaderSource ++
    (if compileAborts env GL_FRAGMENT_SHADER then []
     else
      [.glAttachShader env.glCreateProgram (compileValue env GL_VERTEX_SHADER),
       .glAttachShader env.glCreateProgram (compileValue env GL_FRAGMENT_SHADER),
       .glLinkProgram env.glCreateProgram,
       .glValidateProgram env.glCreateProgram]))

/-- What `CreateShaderProgram` prints. -/
def buildOutput (env : Env) : String :=
  compileOutput env GL_VERTEX_SHADER ++
    (if compileAborts env GL_VERTEX_SHADER then "" else compileOutput env GL_FRAGMENT_SHADER)

/-! ## Theorems -/

/-- What `CompileShader` does for either stage: whether it is aborted, what it
returns, the calls it issues and what it prints. -/
theorem ep9_CompileShader_eq (env : Env) (type : Nat) (sourceCode : String) (w : World)
    (htype : type = GL_VERTEX_SHADER ∨ type = GL_FRAGMENT_SHADER) :
    Episode9.CompileShader env type sourceCode w =
      if compileAborts env type = true then
        .abort { w with
          trace := w.trace ++ compileCalls env type sourceCode
          stdout := w.stdout ++ compileOutput env type }
      else
        .ret (compileValue env type) { w with
          trace := w.trace ++ compileCalls env type sourceCode
          stdout := w.stdout ++ compileOutput env type } := by
  have hne : GL_FRAGMENT_SHADER ≠ GL_VERTEX_SHADER := by decide
  rcases htype with rfl | rfl
  · by_cases hs : env.glGetShaderiv (env.glCreateShader GL_VERTEX_SHADER) GL_COMPILE_STATUS
        = GL_FALSE
    · by_cases hl : env.glGetShaderiv (env.glCreateShader GL_VERTEX_SHADER) GL_INFO_LOG_LENGTH < 0
      · simp [Episode9.CompileShader, compileAborts, compileCalls, compileOutput, compileValue,
          hs, hl, World.call, World.cout]
      · simp [Episode9.CompileShader, compileAborts, compileCalls, compileOutput, compileValue,
          printedLog, stageName, hs, hl, World.call, World.cout, String.append_assoc]
    · simp [Episode9.CompileShader, compileAborts, compileCalls, compileOutput, compileValue,
        hs, World.call, World.cout]
  · by_cases hs : env.glGetShaderiv (env.glCreateShader GL_FRAGMENT_SHADER) GL_COMPILE_STATUS
        = GL_FALSE
    · by_cases hl : env.glGetShaderiv (env.glCreateShader GL_FRAGMENT_SHADER) GL_INFO_LOG_LENGTH
          < 0
      · simp [Episode9.CompileShader, compileAborts, compileCalls, compileOutput, compileValue,
          hs, hl, hne, World.call, World.cout]
      · simp [Episode9.CompileShader, compileAborts, compileCalls, compileOutput, compileValue,
          printedLog, stageName, hs, hl, hne, World.call, World.cout, String.append_assoc]
    · simp [Episode9.CompileShader, compileAborts, compileCalls, compileOutput, compileValue,
        hs, hne, World.call, World.cout]

/-- What `CreateShaderProgram` does: whether it is aborted, the handle it
returns, the calls it issues and what it prints. -/
theorem ep9_CreateShaderProgram_eq (env : Env) (vertexShaderSource fragmentShaderSource : String)
    (w : World) :
    Episode9.CreateShaderProgram env vertexShaderSource fragmentShaderSource w =
      if buildAborts env = true then
        .abort { w with
          trace := w.trace ++ buildCalls env vertexShaderSource fragmentShaderSource
          stdout := w.stdout ++ buildOutput env }
      else
        .ret env.glCreateProgram { w with
          trace := w.trace ++ buildCalls env vertexShaderSource fragmentShaderSource
          stdout := w.stdout ++ buildOutput env } := by
  unfold Episode9.CreateShaderProgram
  simp only [ep9_CompileShader_eq env GL_VERTEX_SHADER _ _ (Or.inl rfl)]
  by_cases hv : compileAborts env GL_VERTEX_SHADER = true
  · simp [hv, Outcome.bind, buildAborts, buildCalls, buildOutput, World.call]
  · simp only [hv, Outcome.bind, if_false, Bool.false_eq_true,
      ep9_CompileShader_eq env GL_FRAGMENT_SHADER _ _ (Or.inr rfl)]
    by_cases hf : compileAborts env GL_FRAGMENT_SHADER = true
    · simp [hv, hf, Outcome.bind, buildAborts, buildCalls, buildOutput, World.call,
        String.append_assoc]
    · simp [hv, hf, Outcome.bind, buildAborts, buildCalls, buildOutput, World.call,
        String.append_assoc]

/-- What `CreateGraphicsPipeline` does; the global is assigned only if the build
returned. -/
theorem ep9_CreateGraphicsPipeline_eq (env : Env) (w : World) :
    Episode9.CreateGraphicsPipeline env w =
      if buildAborts env = true then
        .abort { w with
          trace := w.trace ++
            buildCalls env Episode9.gVertexShaderSource Episode9.gFragmentShaderSource
          stdout := w.stdout ++ buildOutput env }
      else
        .ret () { w with
          gGraphicsPipelineShaderProgram := env.glCreateProgram
          trace := w.trace ++
            buildCalls env Episode9.gVertexShaderSource Episode9.gFragmentShaderSource
          stdout := w.stdout ++ buildOutput env } := by
  unfold Episode9.CreateGraphicsPipeline
  rw [ep9_CreateShaderProgram_eq]
  by_cases h : buildAborts env = true <;> simp [h, Outcome.bind]

/-- After `Input`, `gQuit` is raised exactly if it was or the queue held a quit event. -/
theorem ep5_Input_gQuit (batch : List SDL_Event) (w : World) :
    (Episode5.Input batch w).1.gQuit = (w.gQuit || hasQuit batch) := by
  induction batch generalizing w with
  | nil => simp [Episode5.Input, World.call, hasQuit]
  | cons event queue ih =>
    by_cases h : event.type = SDL_QUIT
    · simp [Episode5.Input, ih, World.call, World.cout, hasQuit, h]
    · simp [Episode5.Input, ih, World.call, hasQuit, h]

/-- The loop is left as soon as some batch holds a quit event. -/
theorem ep5_MainLoop_finishes (batches : List (List SDL_Event)) (w : World)
    (h : w.gQuit = true ∨ ∃ batch ∈ batches, hasQuit batch = true) :
    ∃ w', Episode5.MainLoop batches w = .finished w' := by
  induction batches generalizing w with
  | nil =>
    rcases h with h | ⟨b, hb, _⟩
    · exact ⟨w, by simp [Episode5.MainLoop, h]⟩
    · simp at hb
  | cons batch later ih =>
    by_cases hq : w.gQuit = true
    · exact ⟨w, by simp [Episode5.MainLoop, hq]⟩
    · simp only [Episode5.MainLoop, hq]
      apply ih
      by_cases hb : hasQuit batch = true
      · left
        simp [World.call, Episode5.Draw, Episode5.PreDraw, ep5_Input_gQuit, hb]
      · right
        rcases h with h | ⟨b, hmem, hbq⟩
        · exact absurd h hq
        · rcases List.mem_cons.mp hmem with rfl | hmem
          · exact absurd hbq hb
          · exact ⟨b, hmem, hbq⟩

/-- The bootstrap from the initial globals, branch by branch. -/
theorem ep5_InitializeProgram_cases (env : Env) :
    Episode5.InitializeProgram env World.init =
      if env.SDL_Init 0 ≠ 0 then
        .exit 1 { World.init with
          trace := callsThrough env .sdlInit
          stderr := "SDL2 could not initialize video subsystem\n" }
      else if bootWindow env = 0 then
        .exit 1 { World.init with
          trace := callsThrough env .createWindow
          stderr := "Could not create window\n" }
      else if env.SDL_GL_CreateContext (bootWindow env) = 0 then
        .exit 1 { World.init with
          gGraphicsApplicationWindow := bootWindow env
          trace := callsThrough env .createContext
          stderr := "Could not create opengl context\n" }
      else if env.gladLoadGLLoader = 0 then
        .exit 1 { World.init with
          gGraphicsApplicationWindow := bootWindow env
          gOpenGLContext := env.SDL_GL_CreateContext (bootWindow env)
          trace := callsThrough env .loadFunctions
          stderr := "Could not start glad function\n" }
      else
        .ret () (Episode5.GetOpenGLVersionInfo env { World.init with
          gGraphicsApplicationWindow := bootWindow env
          gOpenGLContext := env.SDL_GL_CreateContext (bootWindow env)
          trace := callsThrough env .loadFunctions }) := by
  have hflags : Episode5.sdlInitFlags = 0 := by decide
  unfold Episode5.InitializeProgram
  simp only [hflags, World.call, World.cerr, World.init, bootWindow, callsThrough]
  split_ifs <;> simp_all

/-- After `Input`, `gQuit` is raised exactly if it was or the queue held a quit event. -/
theorem ep9_Input_gQuit (batch : List SDL_Event) (w : World) :
    (Episode9.Input batch w).1.gQuit = (w.gQuit || hasQuit batch) := by
  induction batch generalizing w with
  | nil => simp [Episode9.Input, World.call, hasQuit]
  | cons event queue ih =>
    by_cases h : event.type = SDL_QUIT
    · simp [Episode9.Input, ih, World.call, World.cout, hasQuit, h]
    · simp [Episode9.Input, ih, World.call, hasQuit, h]

/-- The loop is left as soon as some batch holds a quit event. -/
theorem ep9_MainLoop_finishes (batches : List (List SDL_Event)) (w : World)
    (h : w.gQuit = true ∨ ∃ batch ∈ batches, hasQuit batch = true) :
    ∃ w', Episode9.MainLoop batches w = .finished w' := by
  induction batches generalizing w with
  | nil =>
    rcases h with h | ⟨b, hb, _⟩
    · exact ⟨w, by simp [Episode9.MainLoop, h]⟩
    · simp at hb
  | cons batch later ih =>
    by_cases hq : w.gQuit = true
    · exact ⟨w, by simp [Episode9.MainLoop, hq]⟩
    · simp only [Episode9.MainLoop, hq]
      apply ih
      by_cases hb : hasQuit batch = true
      · left
        simp [World.call, Episode9.Draw, Episode9.PreDraw, ep9_Input_gQuit, hb]
      · right
        rcases h with h | ⟨b, hmem, hbq⟩
        · exact absurd h hq
        · rcases List.mem_cons.mp hmem with rfl | hmem
          · exact absurd hbq hb
          · exact ⟨b, hmem, hbq⟩

/-- The bootstrap from the initial globals, branch by branch. -/
theorem ep9_InitializeProgram_cases (env : Env) :
    Episode9.InitializeProgram env World.init =
      if env.SDL_Init 0 ≠ 0 then
        .exit 1 { World.init with
          trace := callsThrough env .sdlInit
          stderr := "SDL2 could not initialize video subsystem\n" }
      else if bootWindow env = 0 then
        .exit 1 { World.init with
          trace := callsThrough env .createWindow
          stderr := "Could not create window\n" }
      else if env.SDL_GL_CreateContext (bootWindow env) = 0 then
        .exit 1 { World.init with
          gGraphicsApplicationWindow := bootWindow env
          trace := callsThrough env .createContext
          stderr := "Could not create opengl context\n" }
      else if env.gladLoadGLLoader = 0 then
        .exit 1 { World.init with
          gGraphicsApplicationWindow := bootWindow env
          gOpenGLContext := env.SDL_GL_CreateContext (bootWindow env)
          trace := callsThrough env .loadFunctions
          stderr := "Could not start glad function\n" }
      else
        .ret () (Episode9.GetOpenGLVersionInfo env { World.init with
          gGraphicsApplicationWindow := bootWindow env
          gOpenGLContext := env.SDL_GL_CreateContext (bootWindow env)
          trace := callsThrough env .loadFunctions }) := by
  have hflags : Episode9.sdlInitFlags = 0 := by decide
  unfold Episode9.InitializeProgram
  simp only [hflags, World.call, World.cerr, World.init, bootWindow, callsThrough]
  split_ifs <;> simp_all

/-- When no step fails, each step reports success. -/
theorem firstFailure_none (env : Env) (h : firstFailure env = none) :
    ¬ env.SDL_Init 0 < 0 ∧ bootWindow env ≠ 0 ∧
      env.SDL_GL_CreateContext (bootWindow env) ≠ 0 ∧ env.gladLoadGLLoader ≠ 0 := by
  unfold firstFailure at h
  split_ifs at h
  exact ⟨by assumption, by assumption, by assumption, by assumption⟩

/-- Neither compile of `CreateShaderProgram` polls for events. -/
theorem buildCalls_no_poll (env : Env) (vertexShaderSource fragmentShaderSource : String) :
    Call.SDL_PollEvent ∉ buildCalls env vertexShaderSource fragmentShaderSource := by
  unfold buildCalls compileCalls
  split_ifs <;> simp

/-- C1. Exit-code contract of `main` in both programs.  `SDL_Init` is taken to
answer within its documented range, 0 or a negative error code.  If some
bootstrap step is the first to fail, the process ends with exit code 1, the
error stream holds exactly that step's diagnostic, and the calls issued are
those up to that step: no later step, no frame loop.  If no step fails and
some batch of events holds a quit event, `main` of episode 5 returns 0, and
`main` of episode 9 returns 0 unless the shader build is cut short by the
allocation of a negative log length; then the process is aborted before the
frame loop is entered, so that there is no frame loop to end. -/
theorem exit_code_contract (env : Env) (batches : List (List SDL_Event))
    (hcontract : env.SDL_Init 0 ≤ 0) :
    (∀ step, firstFailure env = some step →
      (∃ w, Episode5.main env batches = .exited 1 w ∧
        w.stderr = step.diagnostic ++ "\n" ∧ w.trace = callsThrough env step) ∧
      (∃ w, Episode9.main env batches = .exited 1 w ∧
        w.stderr = step.diagnostic ++ "\n" ∧ w.trace = callsThrough env step)) ∧
    (firstFailure env = none → (∃ batch ∈ batches, hasQuit batch = true) →
      (∃ w, Episode5.main env batches = .returned 0 w) ∧
      (buildAborts env = false → ∃ w, Episode9.main env batches = .returned 0 w) ∧
      (buildAborts env = true →
        ∃ w, Episode9.main env batches = .aborted w ∧ Call.SDL_PollEvent ∉ w.trace)) := by
  constructor
  · intro step hstep
    unfold firstFailure at hstep
    unfold Episode5.main Episode9.main
    rw [ep5_InitializeProgram_cases, ep9_InitializeProgram_cases]
    split_ifs at hstep with h1 h2 h3 h4
    · cases hstep
      have : env.SDL_Init 0 ≠ 0 := by omega
      simp [this, BootStep.diagnostic]
    · cases hstep
      have : env.SDL_Init 0 = 0 := by omega
      simp [this, h2, BootStep.diagnostic]
    · cases hstep
      have : env.SDL_Init 0 = 0 := by omega
      simp [this, h2, h3, BootStep.diagnostic]
    · cases hstep
      have : env.SDL_Init 0 = 0 := by omega
      simp [this, h2, h3, h4, BootStep.diagnostic]
  · intro hnone hquit
    obtain ⟨h1, h2, h3, h4⟩ := firstFailure_none env hnone
    have h0 : env.SDL_Init 0 = 0 := by omega
    unfold Episode5.main Episode9.main
    rw [ep5_InitializeProgram_cases, ep9_InitializeProgram_cases]
    simp only [h0, h2, h3, h4, ne_eq, not_true_eq_false, if_false]
    refine ⟨?_, ?_, ?_⟩
    · obtain ⟨w', hw'⟩ := ep5_MainLoop_finishes batches
        (Episode5.GetOpenGLVersionInfo env { World.init with
          gGraphicsApplicationWindow := bootWindow env
          gOpenGLContext := env.SDL_GL_CreateContext (bootWindow env)
          trace := callsThrough env .loadFunctions }) (Or.inr hquit)
      exact ⟨Episode5.CleanUp w', by simp [hw']⟩
    · intro hbuild
      simp only [ep9_CreateGraphicsPipeline_eq, hbuild, Bool.false_eq_true, if_false]
      obtain ⟨w', hw'⟩ := ep9_MainLoop_finishes batches
        { Episode9.VertexSpecification env
            (Episode9.GetOpenGLVersionInfo env { World.init with
              gGraphicsApplicationWindow := bootWindow env
              gOpenGLContext := env.SDL_GL_CreateContext (bootWindow env)
              trace := callsThrough env .loadFunctions }) with
          gGraphicsPipelineShaderProgram := env.glCreateProgram
          trace := (Episode9.VertexSpecification env
            (Episode9.GetOpenGLVersionInfo env { World.init with
              gGraphicsApplicationWindow := bootWindow env
              gOpenGLContext := env.SDL_GL_CreateContext (bootWindow env)
              trace := callsThrough env .loadFunctions })).trace ++
            buildCalls env Episode9.gVertexShaderSource Episode9.gFragmentShaderSource
          stdout := (Episode9.VertexSpecification env
            (Episode9.GetOpenGLVersionInfo env { World.init with
              gGraphicsApplicationWindow := bootWindow env
              gOpenGLContext := env.SDL_GL_CreateContext (bootWindow env)
              trace := callsThrough env .loadFunctions })).stdout ++ buildOutput env }
        (Or.inr hquit)
      exact ⟨Episode9.CleanUp w', by simp [hw']⟩
    · intro hbuild
      simp only [ep9_CreateGraphicsPipeline_eq, hbuild, if_true]
      refine ⟨_, rfl, ?_⟩
      have hb := buildCalls_no_poll env Episode9.gVertexShaderSource
        Episode9.gFragmentShaderSource
      simp [Episode9.VertexSpecification, Episode9.GetOpenGLVersionInfo, World.call, World.cout,
        callsThrough, hb]

/-- The contract of C1 at three drivers: one that cannot create a window, where
episode 9 exits with code 1 and the window diagnostic; the sample driver,
where both programs return 0 once the second batch brings the quit event; and
one that reports a negative log length, where episode 9 is aborted. -/
theorem exit_code_contract_witness :
    Env.noWindow.SDL_Init 0 ≤ 0 ∧ Env.sample.SDL_Init 0 ≤ 0 ∧
    Env.negativeLog.SDL_Init 0 ≤ 0 ∧
    (∃ w, Episode9.main Env.noWindow [[quitEvent]] = .exited 1 w ∧
      w.stderr = "Could not create window\n" ∧
      w.trace = callsThrough Env.noWindow .createWindow) ∧
    (∃ w, Episode5.main Env.sample [[otherEvent], [quitEvent]] = .returned 0 w) ∧
    (∃ w, Episode9.main Env.sample [[otherEvent], [quitEvent]] = .returned 0 w) ∧
    (∃ w, Episode9.main Env.negativeLog [[quitEvent]] = .aborted w ∧
      Call.SDL_PollEvent ∉ w.trace) :=
  ⟨by decide, by decide, by decide,
   ((exit_code_contract Env.noWindow [[quitEvent]] (by decide)).1 .createWindow
      (by decide)).2,
   ((exit_code_contract Env.sample [[otherEvent], [quitEvent]] (by decide)).2 (by decide)
      ⟨[quitEvent], by simp, by decide⟩).1,
   ((exit_code_contract Env.sample [[otherEvent], [quitEvent]] (by decide)).2 (by decide)
      ⟨[quitEvent], by simp, by decide⟩).2.1 (by decide),
   ((exit_code_contract Env.negativeLog [[quitEvent]] (by decide)).2 (by decide)
      ⟨[quitEvent], by simp, by decide⟩).2.2 (by decide)⟩

/-- C10. The flags argument of `SDL_Init` is the value of the comparison
`SDL_INIT_VIDEO < 0`, that is 0, in both programs, not `SDL_INIT_VIDEO`
(0x20): under a driver whose `SDL_Init` returns a negative value for the
video flag, neither bootstrap takes its failure branch, and the first call
of each is `SDL_Init(0)`.  Under every driver the video-subsystem diagnostic
is written exactly when `SDL_Init(0)` returns a nonzero value. -/
theorem sdl_init_called_without_video_flag :
    Episode5.sdlInitFlags = 0 ∧ Episode9.sdlInitFlags = 0 ∧ SDL_INIT_VIDEO = 0x20 ∧
    Env.videoFails.SDL_Init SDL_INIT_VIDEO < 0 ∧
    (Episode5.InitializeProgram Env.videoFails World.init).exitCode = none ∧
    (Episode9.InitializeProgram Env.videoFails World.init).exitCode = none ∧
    (Episode5.InitializeProgram Env.videoFails World.init).world.trace.head? =
      some (.SDL_Init 0) ∧
    (Episode9.InitializeProgram Env.videoFails World.init).world.trace.head? =
      some (.SDL_Init 0) ∧
    (∀ env : Env,
      ((Episode5.InitializeProgram env World.init).world.stderr =
          "SDL2 could not initialize video subsystem\n" ↔ env.SDL_Init 0 ≠ 0) ∧
      ((Episode9.InitializeProgram env World.init).world.stderr =
          "SDL2 could not initialize video subsystem\n" ↔ env.SDL_Init 0 ≠ 0)) := by
  refine ⟨by decide, by decide, by decide, by decide, by decide, by decide, by decide,
    by decide, ?_⟩
  intro env
  rw [ep5_InitializeProgram_cases, ep9_InitializeProgram_cases]
  constructor
  · split_ifs with h1 h2 h3 h4 <;>
      simp [Outcome.world, Episode5.GetOpenGLVersionInfo, World.call, World.cout, World.init, h1]
  · split_ifs with h1 h2 h3 h4 <;>
      simp [Outcome.world, Episode9.GetOpenGLVersionInfo, World.call, World.cout, World.init, h1]

/-- C2. `CompileShader` does not fail closed when the driver reports no usable
log length.  With compile status `GL_FALSE` and log length 0, which is what
OpenGL reports for a shader without info log, the function allocates a
zero-size array, fetches nothing into it and streams a C string from past
its end: what follows the message is stray memory (here `@#`), not the log
(here empty); with a negative length the allocation throws and the process
is aborted after four calls, the shader neither deleted nor 0 returned.  For
every driver and source, both stages behave as `compileAborts`,
`compileValue`, `compileCalls` and `compileOutput` say: only for a positive
length is the text after the message the driver's log. -/
theorem CompileShader_reads_past_empty_log :
    Env.emptyLog.glGetShaderiv 1 GL_INFO_LOG_LENGTH = 0 ∧
    Env.emptyLog.glGetShaderInfoLog 1 0 = "" ∧
    Episode9.CompileShader Env.emptyLog GL_VERTEX_SHADER "void main()" World.init =
      .ret 0 { World.init with
        trace :=
          [.glCreateShader GL_VERTEX_SHADER,
           .glShaderSource 1 1 "void main()",
           .glGetShaderiv 1 GL_COMPILE_STATUS,
           .glGetShaderiv 1 GL_INFO_LOG_LENGTH,
           .glGetShaderInfoLog 1 0,
           .glDeleteShader 1]
        stdout := "ERROR: GL_VERTEX_SHADER compilation failed!\n @#\n" } ∧
    Episode9.CompileShader Env.negativeLog GL_FRAGMENT_SHADER "void main()" World.init =
      .abort { World.init with
        trace :=
          [.glCreateShader GL_FRAGMENT_SHADER,
           .glShaderSource 2 1 "void main()",
           .glGetShaderiv 2 GL_COMPILE_STATUS,
           .glGetShaderiv 2 GL_INFO_LOG_LENGTH] } ∧
    (∀ (env : Env) (sourceCode : String) (w : World),
      Episode9.CompileShader env GL_VERTEX_SHADER sourceCode w =
        (if compileAborts env GL_VERTEX_SHADER = true then
          .abort { w with
            trace := w.trace ++ compileCalls env GL_VERTEX_SHADER sourceCode
            stdout := w.stdout ++ compileOutput env GL_VERTEX_SHADER }
        else
          .ret (compileValue env GL_VERTEX_SHADER) { w with
            trace := w.trace ++ compileCalls env GL_VERTEX_SHADER sourceCode
            stdout := w.stdout ++ compileOutput env GL_VERTEX_SHADER }) ∧
      Episode9.CompileShader env GL_FRAGMENT_SHADER sourceCode w =
        (if compileAborts env GL_FRAGMENT_SHADER = true then
          .abort { w with
            trace := w.trace ++ compileCalls env GL_FRAGMENT_SHADER sourceCode
            stdout := w.stdout ++ compileOutput env GL_FRAGMENT_SHADER }
        else
          .ret (compileValue env GL_FRAGMENT_SHADER) { w with
            trace := w.trace ++ compileCalls env GL_FRAGMENT_SHADER sourceCode
            stdout := w.stdout ++ compileOutput env GL_FRAGMENT_SHADER })) := by
  refine ⟨by decide, by decide, rfl, rfl, ?_⟩
  intro env sourceCode w
  exact ⟨ep9_CompileShader_eq env GL_VERTEX_SHADER sourceCode w (Or.inl rfl),
    ep9_CompileShader_eq env GL_FRAGMENT_SHADER sourceCode w (Or.inr rfl)⟩

/-- With a positive log length the failure branch does fail closed: the message
names the stage, the driver's log follows, the shader is deleted and 0 is
returned. -/
theorem ep9_CompileShader_positive_log (env : Env) (type : Nat) (sourceCode : String)
    (w : World) (htype : type = GL_VERTEX_SHADER ∨ type = GL_FRAGMENT_SHADER)
    (hstatus : env.glGetShaderiv (env.glCreateShader type) GL_COMPILE_STATUS = GL_FALSE)
    (hlength : 0 < env.glGetShaderiv (env.glCreateShader type) GL_INFO_LOG_LENGTH) :
    Episode9.CompileShader env type sourceCode w =
      .ret 0 { w with
        trace := w.trace ++
          [.glCreateShader type,
           .glShaderSource (env.glCreateShader type) 1 sourceCode,
           .glGetShaderiv (env.glCreateShader type) GL_COMPILE_STATUS,
           .glGetShaderiv (env.glCreateShader type) GL_INFO_LOG_LENGTH,
           .glGetShaderInfoLog (env.glCreateShader type)
             (env.glGetShaderiv (env.glCreateShader type) GL_INFO_LOG_LENGTH),
           .glDeleteShader (env.glCreateShader type)]
        stdout := w.stdout ++ ("ERROR: " ++ stageName type ++ " compilation failed!\n " ++
          env.glGetShaderInfoLog (env.glCreateShader type)
            (env.glGetShaderiv (env.glCreateShader type) GL_INFO_LOG_LENGTH) ++ "\n") } := by
  have h1 : ¬ env.glGetShaderiv (env.glCreateShader type) GL_INFO_LOG_LENGTH < 0 := by omega
  have h2 : env.glGetShaderiv (env.glCreateShader type) GL_INFO_LOG_LENGTH ≠ 0 := by omega
  rw [ep9_CompileShader_eq env type sourceCode w htype]
  simp [compileAborts, compileValue, compileCalls, compileOutput, printedLog, hstatus, h1, h2]

/-- The calls of one compile hold no `glCompileShader`. -/
theorem compileCalls_no_compile (env : Env) (type : Nat) (sourceCode : String) (shader : Nat) :
    Call.glCompileShader shader ∉ compileCalls env type sourceCode := by
  unfold compileCalls
  split_ifs <;> simp

/-- The first three calls of a compile. -/
theorem compileCalls_take (env : Env) (type : Nat) (sourceCode : String) :
    (compileCalls env type sourceCode).take 3 =
      [.glCreateShader type,
       .glShaderSource (env.glCreateShader type) 1 sourceCode,
       .glGetShaderiv (env.glCreateShader type) GL_COMPILE_STATUS] := by
  simp [compileCalls]

/-- The world `CompileShader` leaves, returned or aborted. -/
theorem ep9_CompileShader_world (env : Env) (type : Nat) (sourceCode : String) (w : World)
    (htype : type = GL_VERTEX_SHADER ∨ type = GL_FRAGMENT_SHADER) :
    (Episode9.CompileShader env type sourceCode w).world =
      { w with
        trace := w.trace ++ compileCalls env type sourceCode
        stdout := w.stdout ++ compileOutput env type } := by
  rw [ep9_CompileShader_eq env type sourceCode w htype]
  split_ifs <;> rfl

/-- The world `CreateShaderProgram` leaves, returned or aborted. -/
theorem ep9_CreateShaderProgram_world (env : Env)
    (vertexShaderSource fragmentShaderSource : String) (w : World) :
    (Episode9.CreateShaderProgram env vertexShaderSource fragmentShaderSource w).world =
      { w with
        trace := w.trace ++ buildCalls env vertexShaderSource fragmentShaderSource
        stdout := w.stdout ++ buildOutput env } := by
  rw [ep9_CreateShaderProgram_eq]
  split_ifs <;> rfl

/-- C3. Neither `CompileShader` nor `CreateShaderProgram` ever compiles a
stage: for every driver and every pair of sources no `glCompileShader` call is
among the calls `CreateShaderProgram` issues, and for each stage the query of
`GL_COMPILE_STATUS` comes directly after `glShaderSource`. -/
theorem CreateShaderProgram_never_compiles (env : Env)
    (vertexShaderSource fragmentShaderSource : String) (w : World) :
    (∀ shader, Call.glCompileShader shader ∉
      issued w
        (Episode9.CreateShaderProgram env vertexShaderSource fragmentShaderSource w).world) ∧
    (issued w (Episode9.CompileShader env GL_VERTEX_SHADER vertexShaderSource w).world).take 3 =
      [.glCreateShader GL_VERTEX_SHADER,
       .glShaderSource (env.glCreateShader GL_VERTEX_SHADER) 1 vertexShaderSource,
       .glGetShaderiv (env.glCreateShader GL_VERTEX_SHADER) GL_COMPILE_STATUS] ∧
    (issued w
        (Episode9.CompileShader env GL_FRAGMENT_SHADER fragmentShaderSource w).world).take 3 =
      [.glCreateShader GL_FRAGMENT_SHADER,
       .glShaderSource (env.glCreateShader GL_FRAGMENT_SHADER) 1 fragmentShaderSource,
       .glGetShaderiv (env.glCreateShader GL_FRAGMENT_SHADER) GL_COMPILE_STATUS] := by
  refine ⟨?_, ?_, ?_⟩
  · intro shader
    rw [ep9_CreateShaderProgram_world]
    have hv := compileCalls_no_compile env GL_VERTEX_SHADER vertexShaderSource shader
    have hf := compileCalls_no_compile env GL_FRAGMENT_SHADER fragmentShaderSource shader
    unfold buildCalls
    simp only [issued, List.drop_left]
    split_ifs <;> simp [hv, hf]
  · rw [ep9_CompileShader_world env _ _ _ (Or.inl rfl)]
    simp only [issued, List.drop_left]
    exact compileCalls_take env GL_VERTEX_SHADER vertexShaderSource
  · rw [ep9_CompileShader_world env _ _ _ (Or.inr rfl)]
    simp only [issued, List.drop_left]
    exact compileCalls_take env GL_FRAGMENT_SHADER fragmentShaderSource

/-- C4. Geometry upload.  `VertexSpecification` issues one `glBufferData`, of
9 * 4 = 36 bytes with usage `GL_STATIC_DRAW`, and describes attribute 0 as 3
components of `GL_FLOAT`, not normalized, stride 0, offset 0; the 9 floats
make 3 vertices, the count `Draw` passes to `glDrawArrays` from first
vertex 0. -/
theorem vertex_upload_layout (env : Env) (w : World) :
    issued w (Episode9.VertexSpecification env w) =
      [.glGenVertexArrays 1,
       .glBindVertexArray (env.glGenVertexArrays 1),
       .glGenBuffers 1,
       .glBindBuffer GL_ARRAY_BUFFER (env.glGenBuffers 1),
       .glBufferData GL_ARRAY_BUFFER 36 Episode9.vertexPosition GL_STATIC_DRAW,
       .glEnableVertexAttribArray 0,
       .glVertexAttribPointer 0 3 GL_FLOAT GL_FALSE 0 0,
       .glBindVertexArray 0,
       .glDisableVertexAttribArray 0] ∧
    Episode9.vertexPosition.length = 9 ∧ sizeofGLfloat = 4 ∧
    Episode9.vertexPosition.length * sizeofGLfloat = 36 ∧
    Episode9.vertexPosition.length / 3 = 3 ∧
    issued w (Episode9.Draw w) =
      [.glBindVertexArray w.gVertexArrayObject,
       .glBindBuffer GL_ARRAY_BUFFER w.gVertexBufferObject,
       .glDrawArrays GL_TRIANGLES 0 3,
       .glUseProgram 0] := by
  refine ⟨?_, by decide, by decide, by decide, by decide, ?_⟩
  · have hlen : Episode9.vertexPosition.length * sizeofGLfloat = 36 := by decide
    simp [Episode9.VertexSpecification, issued, World.call, hlen]
  · simp [Episode9.Draw, issued, World.call]

/-- C5. After `VertexSpecification` the bound vertex array is 0 but the
buffer bound to `GL_ARRAY_BUFFER` is still the generated one: the clean-up
unbinds the vertex array only.  With the sample driver, which generates
buffer 1, the bound array buffer is 1 when the function returns. -/
theorem array_buffer_left_bound (env : Env) (w : World) (b : GLBinding) :
    bindingAfter b (issued w (Episode9.VertexSpecification env w)) =
      { vertexArray := 0, arrayBuffer := env.glGenBuffers 1 } ∧
    (bindingAfter { vertexArray := 0, arrayBuffer := 0 }
      (Episode9.VertexSpecification Env.sample World.init).trace).arrayBuffer = 1 := by
  constructor
  · simp [Episode9.VertexSpecification, issued, World.call, bindingAfter, GLBinding.apply]
  · decide

/-- One more pending event costs one more poll. -/
theorem pollCalls_cons (event : SDL_Event) (queue : List SDL_Event) :
    pollCalls (event :: queue) = Call.SDL_PollEvent :: pollCalls queue := by
  simp [pollCalls, List.replicate_succ]

/-- What `Input` does to the world: it polls once per event and once more, raises
`gQuit` if a quit event was among them, prints a line per quit event, and
leaves the queue empty. -/
theorem ep9_Input_eq (batch : List SDL_Event) (w : World) :
    Episode9.Input batch w =
      ({ w with
          trace := w.trace ++ pollCalls batch
          gQuit := w.gQuit || hasQuit batch
          stdout := w.stdout ++ goodbyes batch }, []) := by
  induction batch generalizing w with
  | nil => simp [Episode9.Input, World.call, hasQuit, goodbyes, pollCalls]
  | cons event queue ih =>
    by_cases h : event.type = SDL_QUIT
    · simp [Episode9.Input, ih, World.call, World.cout, hasQuit, goodbyes, pollCalls_cons, h,
        String.append_assoc]
    · simp [Episode9.Input, ih, World.call, hasQuit, goodbyes, pollCalls_cons, h]

/-- With `gQuit` raised the loop body is not entered. -/
theorem ep9_MainLoop_of_quit (batches : List (List SDL_Event)) (w : World)
    (h : w.gQuit = true) : Episode9.MainLoop batches w = .finished w := by
  cases batches <;> simp [Episode9.MainLoop, h]

/-- The calls of the whole loop: for each batch it gets to poll, the polls and
then one frame. -/
theorem ep9_MainLoop_trace (batches : List (List SDL_Event)) (w : World)
    (hq : w.gQuit = false) :
    (Episode9.MainLoop batches w).world.trace =
      w.trace ++ (ranBatches batches).flatMap (fun batch =>
        pollCalls batch ++ frameCalls w.gScreenWidth w.gScreenHeight
          w.gGraphicsPipelineShaderProgram w.gVertexArrayObject
          w.gVertexBufferObject w.gGraphicsApplicationWindow) := by
  induction batches generalizing w with
  | nil => simp [Episode9.MainLoop, hq, ranBatches, LoopResult.world]
  | cons batch later ih =>
    by_cases hb : hasQuit batch = true
    · simp only [Episode9.MainLoop, hq, ranBatches, hb]
      rw [ep9_MainLoop_of_quit]
      · simp [LoopResult.world, ep9_Input_eq, Episode9.PreDraw, Episode9.Draw, World.call,
          frameCalls]
      · simp [ep9_Input_eq, Episode9.PreDraw, Episode9.Draw, World.call, hb]
    · have hb' : hasQuit batch = false := by simpa using hb
      simp only [Episode9.MainLoop, hq, ranBatches, hb', Bool.false_eq_true, if_false]
      rw [ih]
      · simp [ep9_Input_eq, Episode9.PreDraw, Episode9.Draw, World.call,
          frameCalls]
      · simp [ep9_Input_eq, Episode9.PreDraw, Episode9.Draw, World.call, hb', hq]

/-- The world a successful bootstrap returns. -/
theorem ep9_InitializeProgram_ret (env : Env) (w0 : World)
    (h : Episode9.InitializeProgram env World.init = .ret () w0) :
    w0 = Episode9.GetOpenGLVersionInfo env { World.init with
          gGraphicsApplicationWindow := bootWindow env
          gOpenGLContext := env.SDL_GL_CreateContext (bootWindow env)
          trace := callsThrough env .loadFunctions } := by
  rw [ep9_InitializeProgram_cases] at h
  split_ifs at h
  injection h with _ h
  exact h.symm

/-- The globals when the loop is entered: the build assigns the program and
leaves the others as `VertexSpecification` set them. -/
theorem ep9_setup_world (env : Env) (w : World) (hbuild : buildAborts env = false) :
    (Episode9.CreateGraphicsPipeline env (Episode9.VertexSpecification env w)).world =
      { Episode9.VertexSpecification env w with
        gGraphicsPipelineShaderProgram := env.glCreateProgram
        trace := (Episode9.VertexSpecification env w).trace ++
          buildCalls env Episode9.gVertexShaderSource Episode9.gFragmentShaderSource
        stdout := (Episode9.VertexSpecification env w).stdout ++ buildOutput env } := by
  rw [ep9_CreateGraphicsPipeline_eq]
  simp [hbuild, Outcome.world]

/-- A build that returned was not cut short and returned the created program. -/
theorem ep9_build_returned (env : Env) (vertexShaderSource fragmentShaderSource : String)
    (w w1 : World) (program : Nat)
    (hbuild : Episode9.CreateShaderProgram env vertexShaderSource fragmentShaderSource w =
      .ret program w1) :
    buildAborts env = false ∧ program = env.glCreateProgram ∧
      w1 = { w with
        trace := w.trace ++ buildCalls env vertexShaderSource fragmentShaderSource
        stdout := w.stdout ++ buildOutput env } := by
  rw [ep9_CreateShaderProgram_eq] at hbuild
  split_ifs at hbuild with h
  injection hbuild with h1 h2
  exact ⟨by simpa using h, h1.symm, h2.symm⟩

/-- C6. Per-iteration call sequence of `MainLoop` in episode 9.  After a
successful bootstrap, `VertexSpecification` and a shader build that returned
`program`, the loop is entered in the world `CreateGraphicsPipeline` returns,
and its calls are, for each batch it polls, the polls that drain the batch
followed by: disable depth test, disable face culling, viewport
(0,0,640,480), clear colour (1,1,0,1), clear of depth and colour, use of
`program`, binding of the vertex array and buffer `VertexSpecification`
generated, `glDrawArrays(GL_TRIANGLES, 0, 3)`, `glUseProgram(0)`, and the
swap of the window; each iteration holds exactly one clear, one draw and one
swap. -/
theorem frame_call_sequence (env : Env) (batches : List (List SDL_Event)) (w0 w1 : World)
    (program : Nat)
    (hboot : Episode9.InitializeProgram env World.init = .ret () w0)
    (hbuild : Episode9.CreateShaderProgram env Episode9.gVertexShaderSource
      Episode9.gFragmentShaderSource (Episode9.VertexSpecification env w0) = .ret program w1) :
    issued (Episode9.CreateGraphicsPipeline env (Episode9.VertexSpecification env w0)).world
        (Episode9.MainLoop batches
          (Episode9.CreateGraphicsPipeline env
            (Episode9.VertexSpecification env w0)).world).world =
      (ranBatches batches).flatMap (fun batch =>
        pollCalls batch ++
          frameCalls 640 480
            program
            (Episode9.VertexSpecification env w0).gVertexArrayObject
            (Episode9.VertexSpecification env w0).gVertexBufferObject
            w0.gGraphicsApplicationWindow) ∧
    (∀ batch program vertexArray buffer window,
      (pollCalls batch ++ frameCalls 640 480 program vertexArray buffer window).countP isClear
        = 1 ∧
      (pollCalls batch ++ frameCalls 640 480 program vertexArray buffer window).countP isDraw
        = 1 ∧
      (pollCalls batch ++ frameCalls 640 480 program vertexArray buffer window).countP isSwap
        = 1) ∧
    Episode9.CreateGraphicsPipeline env (Episode9.VertexSpecification env w0) =
      .ret () (Episode9.CreateGraphicsPipeline env
        (Episode9.VertexSpecification env w0)).world := by
  have hw0 := ep9_InitializeProgram_ret env w0 hboot
  obtain ⟨hb, hp, _⟩ := ep9_build_returned env _ _ _ _ _ hbuild
  have hworld := ep9_setup_world env w0 hb
  refine ⟨?_, ?_, ?_⟩
  · unfold issued
    rw [ep9_MainLoop_trace _ _ (by rw [hworld, hw0]; rfl), List.drop_left, hworld, hp]
    have h640 : w0.gScreenWidth = 640 := by rw [hw0]; rfl
    have h480 : w0.gScreenHeight = 480 := by rw [hw0]; rfl
    simp [Episode9.VertexSpecification, World.call, h640, h480]
  · intro batch program vertexArray buffer window
    simp [pollCalls, frameCalls, List.countP_replicate, List.countP_cons, isClear, isDraw, isSwap]
  · rw [ep9_CreateGraphicsPipeline_eq]
    simp [hb, Outcome.world]

/-- The property of C6 under the sample driver with three batches, the second
holding the quit event: two iterations, 26 calls. -/
theorem frame_call_sequence_witness :
    Episode9.InitializeProgram Env.sample World.init =
      .ret () (Episode9.InitializeProgram Env.sample World.init).world ∧
    Episode9.CreateShaderProgram Env.sample Episode9.gVertexShaderSource
        Episode9.gFragmentShaderSource
        (Episode9.VertexSpecification Env.sample
          (Episode9.InitializeProgram Env.sample World.init).world) =
      .ret 3 (Episode9.CreateShaderProgram Env.sample Episode9.gVertexShaderSource
        Episode9.gFragmentShaderSource
        (Episode9.VertexSpecification Env.sample
          (Episode9.InitializeProgram Env.sample World.init).world)).world ∧
    (issued
      (Episode9.CreateGraphicsPipeline Env.sample (Episode9.VertexSpecification Env.sample
        (Episode9.InitializeProgram Env.sample World.init).world)).world
      (Episode9.MainLoop [[otherEvent], [quitEvent], []]
        (Episode9.CreateGraphicsPipeline Env.sample (Episode9.VertexSpecification Env.sample
          (Episode9.InitializeProgram Env.sample World.init).world)).world).world).length
      = 26 :=
  ⟨rfl, rfl, by
    rw [(frame_call_sequence Env.sample [[otherEvent], [quitEvent], []]
      (Episode9.InitializeProgram Env.sample World.init).world
      (Episode9.CreateShaderProgram Env.sample Episode9.gVertexShaderSource
        Episode9.gFragmentShaderSource
        (Episode9.VertexSpecification Env.sample
          (Episode9.InitializeProgram Env.sample World.init).world)).world 3 rfl rfl).1]
    decide⟩

/-- What `Input` does to the world: it polls once per event and once more, raises
`gQuit` if a quit event was among them, prints a line per quit event, and
leaves the queue empty. -/
theorem ep5_Input_eq (batch : List SDL_Event) (w : World) :
    Episode5.Input batch w =
      ({ w with
          trace := w.trace ++ pollCalls batch
          gQuit := w.gQuit || hasQuit batch
          stdout := w.stdout ++ goodbyes batch }, []) := by
  induction batch generalizing w with
  | nil => simp [Episode5.Input, World.call, hasQuit, goodbyes, pollCalls]
  | cons event queue ih =>
    by_cases h : event.type = SDL_QUIT
    · simp [Episode5.Input, ih, World.call, World.cout, hasQuit, goodbyes, pollCalls_cons, h,
        String.append_assoc]
    · simp [Episode5.Input, ih, World.call, hasQuit, goodbyes, pollCalls_cons, h]

/-- With `gQuit` raised the loop body is not entered. -/
theorem ep5_MainLoop_of_quit (batches : List (List SDL_Event)) (w : World)
    (h : w.gQuit = true) : Episode5.MainLoop batches w = .finished w := by
  cases batches <;> simp [Episode5.MainLoop, h]

/-- The calls of the whole loop: for each batch it gets to poll, the polls and
then the swap. -/
theorem ep5_MainLoop_trace (batches : List (List SDL_Event)) (w : World)
    (hq : w.gQuit = false) :
    (Episode5.MainLoop batches w).world.trace =
      w.trace ++ (ranBatches batches).flatMap (fun batch =>
        pollCalls batch ++ [Call.SDL_GL_SwapWindow w.gGraphicsApplicationWindow]) := by
  induction batches generalizing w with
  | nil => simp [Episode5.MainLoop, hq, ranBatches, LoopResult.world]
  | cons batch later ih =>
    by_cases hb : hasQuit batch = true
    · simp only [Episode5.MainLoop, hq, ranBatches, hb]
      rw [ep5_MainLoop_of_quit]
      · simp [LoopResult.world, ep5_Input_eq, Episode5.PreDraw, Episode5.Draw, World.call]
      · simp [ep5_Input_eq, Episode5.PreDraw, Episode5.Draw, World.call, hb]
    · have hb' : hasQuit batch = false := by simpa using hb
      simp only [Episode5.MainLoop, hq, ranBatches, hb', Bool.false_eq_true, if_false]
      rw [ih]
      · simp [ep5_Input_eq, Episode5.PreDraw, Episode5.Draw, World.call]
      · simp [ep5_Input_eq, Episode5.PreDraw, Episode5.Draw, World.call, hb', hq]

/-- The loop polls the batches before the first quit and the batch holding it. -/
theorem ranBatches_append (pre : List (List SDL_Event)) (quitBatch : List SDL_Event)
    (post : List (List SDL_Event)) (hpre : ∀ batch ∈ pre, hasQuit batch = false)
    (hquit : hasQuit quitBatch = true) :
    ranBatches (pre ++ quitBatch :: post) = pre ++ [quitBatch] := by
  induction pre with
  | nil => simp [ranBatches, hquit]
  | cons batch pre ih =>
    have hb : hasQuit batch = false := hpre batch (by simp)
    have := ih (fun b hbmem => hpre b (by simp [hbmem]))
    simp [ranBatches, hb, this]

/-- Blocks that each hold one matching call hold as many as there are blocks. -/
theorem countP_flatMap_one (p : Call → Bool) (f : List SDL_Event → List Call)
    (hf : ∀ batch, (f batch).countP p = 1) (l : List (List SDL_Event)) :
    (l.flatMap f).countP p = l.length := by
  induction l with
  | nil => simp
  | cons batch l ih => simp [List.flatMap_cons, hf, ih]; omega

/-- The batch with the quit event is among the batches. -/
theorem mem_quit_batch (pre : List (List SDL_Event)) (quitBatch : List SDL_Event)
    (post : List (List SDL_Event)) (hquit : hasQuit quitBatch = true) :
    ∃ batch ∈ pre ++ quitBatch :: post, hasQuit batch = true :=
  ⟨quitBatch, by simp, hquit⟩

/-- The bootstrap does not write `gQuit`. -/
theorem ep5_InitializeProgram_gQuit (env : Env) (w : World) :
    (Episode5.InitializeProgram env w).world.gQuit = w.gQuit := by
  cases w
  unfold Episode5.InitializeProgram
  simp only [World.call, World.cerr]
  split_ifs <;> rfl

/-- The bootstrap does not write `gQuit`. -/
theorem ep9_InitializeProgram_gQuit (env : Env) (w : World) :
    (Episode9.InitializeProgram env w).world.gQuit = w.gQuit := by
  cases w
  unfold Episode9.InitializeProgram
  simp only [World.call, World.cerr]
  split_ifs <;> rfl

/-- No function other than `Input` writes `gQuit`. -/
theorem gQuit_untouched (env : Env) (v : World) :
    (Episode5.InitializeProgram env v).world.gQuit = v.gQuit ∧
    (Episode5.PreDraw v).gQuit = v.gQuit ∧
    (Episode5.Draw v).gQuit = v.gQuit ∧
    (Episode5.CleanUp v).gQuit = v.gQuit ∧
    (Episode9.InitializeProgram env v).world.gQuit = v.gQuit ∧
    (Episode9.VertexSpecification env v).gQuit = v.gQuit ∧
    (Episode9.CreateGraphicsPipeline env v).world.gQuit = v.gQuit ∧
    (Episode9.PreDraw v).gQuit = v.gQuit ∧
    (Episode9.Draw v).gQuit = v.gQuit ∧
    (Episode9.CleanUp v).gQuit = v.gQuit := by
  refine ⟨ep5_InitializeProgram_gQuit env v, rfl, rfl, by cases v; rfl,
    ep9_InitializeProgram_gQuit env v, by cases v; rfl, ?_, by cases v; rfl,
    by cases v; rfl, by cases v; rfl⟩
  rw [ep9_CreateGraphicsPipeline_eq]
  split_ifs <;> rfl

/-- The loop is only left with `gQuit` raised. -/
theorem ep5_MainLoop_finished_gQuit (batches : List (List SDL_Event)) (w w' : World)
    (h : Episode5.MainLoop batches w = .finished w') : w'.gQuit = true := by
  induction batches generalizing w with
  | nil =>
    by_cases hq : w.gQuit = true
    · simp [Episode5.MainLoop, hq] at h
      rw [← h]; exact hq
    · simp [Episode5.MainLoop, hq] at h
  | cons batch later ih =>
    by_cases hq : w.gQuit = true
    · simp [Episode5.MainLoop, hq] at h
      rw [← h]; exact hq
    · simp only [Episode5.MainLoop, hq] at h
      exact ih _ h

/-- The loop is only left with `gQuit` raised. -/
theorem ep9_MainLoop_finished_gQuit (batches : List (List SDL_Event)) (w w' : World)
    (h : Episode9.MainLoop batches w = .finished w') : w'.gQuit = true := by
  induction batches generalizing w with
  | nil =>
    by_cases hq : w.gQuit = true
    · simp [Episode9.MainLoop, hq] at h
      rw [← h]; exact hq
    · simp [Episode9.MainLoop, hq] at h
  | cons batch later ih =>
    by_cases hq : w.gQuit = true
    · simp [Episode9.MainLoop, hq] at h
      rw [← h]; exact hq
    · simp only [Episode9.MainLoop, hq] at h
      exact ih _ h

/-- C7. Quit handling in both programs.  `gQuit` starts false; `Input` leaves
it raised if it was, raises it exactly when the drained batch holds a quit
event, and always polls the whole batch (one poll per event and the final
empty one, nothing left in the queue); no other function writes it.  If the
batches before `quitBatch` hold no quit event and `quitBatch` holds one, the
loop entered with `gQuit` false runs exactly `pre.length + 1` iterations,
counted by their swaps (and draws in episode 9), and is then left with
`gQuit` raised, whatever batches follow. -/
theorem quit_handling (pre : List (List SDL_Event)) (quitBatch : List SDL_Event)
    (post : List (List SDL_Event)) (w : World)
    (hpre : ∀ batch ∈ pre, hasQuit batch = false) (hquit : hasQuit quitBatch = true)
    (hw : w.gQuit = false) :
    World.init.gQuit = false ∧
    (∀ batch v,
      (Episode5.Input batch v).1.gQuit = (v.gQuit || hasQuit batch) ∧
      (Episode5.Input batch v).2 = [] ∧
      issued v (Episode5.Input batch v).1 = pollCalls batch ∧
      (Episode9.Input batch v).1.gQuit = (v.gQuit || hasQuit batch) ∧
      (Episode9.Input batch v).2 = [] ∧
      issued v (Episode9.Input batch v).1 = pollCalls batch) ∧
    (∀ (env : Env) (v : World),
      (Episode5.InitializeProgram env v).world.gQuit = v.gQuit ∧
      (Episode5.PreDraw v).gQuit = v.gQuit ∧
      (Episode5.Draw v).gQuit = v.gQuit ∧
      (Episode5.CleanUp v).gQuit = v.gQuit ∧
      (Episode9.InitializeProgram env v).world.gQuit = v.gQuit ∧
      (Episode9.VertexSpecification env v).gQuit = v.gQuit ∧
      (Episode9.CreateGraphicsPipeline env v).world.gQuit = v.gQuit ∧
      (Episode9.PreDraw v).gQuit = v.gQuit ∧
      (Episode9.Draw v).gQuit = v.gQuit ∧
      (Episode9.CleanUp v).gQuit = v.gQuit) ∧
    (∃ w', Episode5.MainLoop (pre ++ quitBatch :: post) w = .finished w' ∧
      w'.gQuit = true ∧
      (issued w w').countP isSwap = pre.length + 1) ∧
    (∃ w', Episode9.MainLoop (pre ++ quitBatch :: post) w = .finished w' ∧
      w'.gQuit = true ∧
      (issued w w').countP isSwap = pre.length + 1 ∧
      (issued w w').countP isDraw = pre.length + 1) := by
  refine ⟨rfl, ?_, gQuit_untouched, ?_, ?_⟩
  · intro batch v
    simp [ep5_Input_eq, ep9_Input_eq, issued]
  · obtain ⟨w', hw'⟩ := ep5_MainLoop_finishes (pre ++ quitBatch :: post) w
      (Or.inr (mem_quit_batch pre quitBatch post hquit))
    have htrace := ep5_MainLoop_trace (pre ++ quitBatch :: post) w hw
    rw [hw', ranBatches_append pre quitBatch post hpre hquit] at htrace
    simp only [LoopResult.world] at htrace
    refine ⟨w', hw', ep5_MainLoop_finished_gQuit _ _ _ hw', ?_⟩
    unfold issued
    rw [htrace, List.drop_left, countP_flatMap_one]
    · simp
    · intro batch
      simp [pollCalls, List.countP_replicate, isSwap]
  · obtain ⟨w', hw'⟩ := ep9_MainLoop_finishes (pre ++ quitBatch :: post) w
      (Or.inr (mem_quit_batch pre quitBatch post hquit))
    have htrace := ep9_MainLoop_trace (pre ++ quitBatch :: post) w hw
    rw [hw', ranBatches_append pre quitBatch post hpre hquit] at htrace
    simp only [LoopResult.world] at htrace
    refine ⟨w', hw', ep9_MainLoop_finished_gQuit _ _ _ hw', ?_, ?_⟩
    · unfold issued
      rw [htrace, List.drop_left, countP_flatMap_one]
      · simp
      · intro batch
        simp [pollCalls, frameCalls, List.countP_replicate, List.countP_cons, isSwap]
    · unfold issued
      rw [htrace, List.drop_left, countP_flatMap_one]
      · simp
      · intro batch
        simp [pollCalls, frameCalls, List.countP_replicate, List.countP_cons, isDraw]

/-- The property of C7 with two quit-free batches before the one holding the
quit event: three iterations, whatever follows. -/
theorem quit_handling_witness :
    (∀ batch ∈ [[otherEvent], []], hasQuit batch = false) ∧
    hasQuit [otherEvent, quitEvent, otherEvent] = true ∧
    World.init.gQuit = false ∧
    (∃ w', Episode9.MainLoop
        ([[otherEvent], []] ++ [otherEvent, quitEvent, otherEvent] :: [[otherEvent]])
        World.init = .finished w' ∧
      w'.gQuit = true ∧
      (issued World.init w').countP isSwap = 3 ∧
      (issued World.init w').countP isDraw = 3) :=
  ⟨by decide, by decide, rfl,
   (quit_handling [[otherEvent], []] [otherEvent, quitEvent, otherEvent] [[otherEvent]]
      World.init (by decide) (by decide) rfl).2.2.2.2⟩

/-- The draws of two runs of calls, the second starting in the state the
first leaves. -/
theorem programsAtDraws_append (env : Env) (s : GLPrograms) (first second : List Call) :
    programsAtDraws env s (first ++ second) =
      programsAtDraws env s first ++ programsAtDraws env (s.after env first) second := by
  induction first generalizing s with
  | nil => rfl
  | cons c rest ih =>
    have hstep : s.after env (c :: rest) = (s.apply env c).after env rest := rfl
    rw [List.cons_append, programsAtDraws, programsAtDraws, ih, hstep, List.append_assoc]

/-- The state after two runs of calls. -/
theorem GLPrograms_after_append (env : Env) (s : GLPrograms) (first second : List Call) :
    s.after env (first ++ second) = (s.after env first).after env second := by
  simp [GLPrograms.after, List.foldl_append]

/-- Calls that neither link, use nor draw leave the program state alone and
draw nothing. -/
theorem programCalls_none (env : Env) (s : GLPrograms) (calls : List Call)
    (h : calls.countP isProgramCall = 0) :
    s.after env calls = s ∧ programsAtDraws env s calls = [] := by
  induction calls generalizing s with
  | nil => exact ⟨rfl, rfl⟩
  | cons c rest ih =>
    rw [List.countP_cons] at h
    have hrest : rest.countP isProgramCall = 0 := by omega
    cases c with
    | glLinkProgram program => simp [isProgramCall] at h
    | glUseProgram program => simp [isProgramCall] at h
    | glDrawArrays mode first count => simp [isProgramCall] at h
    | _ => exact ih s hrest

/-- The calls of the shader build before the attachments hold no link, use or
draw. -/
theorem compileCalls_no_program_call (env : Env) (type : Nat) (sourceCode : String) :
    (compileCalls env type sourceCode).countP isProgramCall = 0 := by
  unfold compileCalls
  split_ifs <;> simp [isProgramCall]

/-- One frame entered with no program in use: its draw runs the frame's program
if that is linked and no program otherwise, and the frame leaves no program
in use. -/
theorem programsAtDraws_frame (env : Env) (s : GLPrograms) (hs : s.current = 0)
    (batch : List SDL_Event) (width height : Int) (program vertexArray buffer window : Nat) :
    programsAtDraws env s
        (pollCalls batch ++ frameCalls width height program vertexArray buffer window) =
      [if program ∈ s.linked then program else 0] ∧
    s.after env
        (pollCalls batch ++ frameCalls width height program vertexArray buffer window) = s := by
  have hpoll : (pollCalls batch).countP isProgramCall = 0 := by
    simp [pollCalls, List.countP_replicate, isProgramCall]
  obtain ⟨h1, h2⟩ := programCalls_none env s _ hpoll
  rw [programsAtDraws_append, GLPrograms_after_append, h1, h2]
  obtain ⟨linked, current⟩ := s
  simp only at hs
  subst hs
  by_cases h0 : program = 0
  · subst h0
    by_cases hmem : 0 ∈ linked <;>
      simp [frameCalls, programsAtDraws, GLPrograms.after, GLPrograms.apply, isDraw, hmem]
  · by_cases hmem : program ∈ linked <;>
      simp [frameCalls, programsAtDraws, GLPrograms.after, GLPrograms.apply, isDraw, hmem, h0]

/-- A run of frames entered with no program in use. -/
theorem programsAtDraws_frames (env : Env) (s : GLPrograms) (hs : s.current = 0)
    (width height : Int) (program vertexArray buffer window : Nat)
    (batches : List (List SDL_Event)) :
    (∀ p ∈ programsAtDraws env s (batches.flatMap (fun batch =>
      pollCalls batch ++ frameCalls width height program vertexArray buffer window)),
      p = if program ∈ s.linked then program else 0) := by
  induction batches with
  | nil => simp [programsAtDraws]
  | cons batch later ih =>
    obtain ⟨h1, h2⟩ := programsAtDraws_frame env s hs batch width height program vertexArray
      buffer window
    intro p hp
    rw [List.flatMap_cons, programsAtDraws_append, h1, h2] at hp
    rcases List.mem_append.mp hp with hp | hp
    · simpa using hp
    · exact ih p hp

/-- A run of frames draws once per frame. -/
theorem programsAtDraws_frames_length (env : Env) (s : GLPrograms) (hs : s.current = 0)
    (width height : Int) (program vertexArray buffer window : Nat)
    (batches : List (List SDL_Event)) :
    (programsAtDraws env s (batches.flatMap (fun batch =>
      pollCalls batch ++ frameCalls width height program vertexArray buffer window))).length =
      batches.length := by
  induction batches with
  | nil => simp [programsAtDraws]
  | cons batch later ih =>
    obtain ⟨h1, h2⟩ := programsAtDraws_frame env s hs batch width height program vertexArray
      buffer window
    rw [List.flatMap_cons, programsAtDraws_append, h1, h2, List.length_append, ih]
    simp
    omega

/-- The calls before the loop: those of a build that returned end with the two
attachments, the link and the validation, and nothing before them links,
uses a program or draws. -/
theorem ep9_setup_trace (env : Env) (w0 : World)
    (hboot : Episode9.InitializeProgram env World.init = .ret () w0)
    (hbuild : buildAborts env = false) :
    ∃ before,
      (Episode9.VertexSpecification env w0).trace ++
          buildCalls env Episode9.gVertexShaderSource Episode9.gFragmentShaderSource =
        before ++
          [.glAttachShader env.glCreateProgram (compileValue env GL_VERTEX_SHADER),
           .glAttachShader env.glCreateProgram (compileValue env GL_FRAGMENT_SHADER),
           .glLinkProgram env.glCreateProgram,
           .glValidateProgram env.glCreateProgram] ∧
      before.countP isProgramCall = 0 := by
  have hv : compileAborts env GL_VERTEX_SHADER = false := by
    unfold buildAborts at hbuild
    simp only [Bool.or_eq_false_iff] at hbuild
    exact hbuild.1
  have hf : compileAborts env GL_FRAGMENT_SHADER = false := by
    unfold buildAborts at hbuild
    simp only [Bool.or_eq_false_iff] at hbuild
    exact hbuild.2
  refine ⟨(Episode9.VertexSpecification env w0).trace ++ [.glCreateProgram] ++
    compileCalls env GL_VERTEX_SHADER Episode9.gVertexShaderSource ++
    compileCalls env GL_FRAGMENT_SHADER Episode9.gFragmentShaderSource, ?_, ?_⟩
  · simp [buildCalls, hv, hf]
  · have hvs : (Episode9.VertexSpecification env w0).trace.countP isProgramCall = 0 := by
      rw [ep9_InitializeProgram_ret env w0 hboot]
      simp [Episode9.VertexSpecification, Episode9.GetOpenGLVersionInfo, World.call, World.cout,
        callsThrough, World.init, isProgramCall]
    simp only [List.countP_append, hvs, compileCalls_no_program_call]
    rfl

/-- The program state a link and a validation leave behind on a fresh context. -/
theorem GLPrograms_after_link (env : Env) (program vertexShader fragmentShader : Nat) :
    GLPrograms.fresh.after env
        [.glAttachShader program vertexShader,
         .glAttachShader program fragmentShader,
         .glLinkProgram program,
         .glValidateProgram program] =
      { linked := if env.glLinkProgram program = true then [program] else [], current := 0 } := by
  by_cases h : env.glLinkProgram program = true <;>
    simp [GLPrograms.after, GLPrograms.apply, GLPrograms.fresh, h]

/-- C8, as stated, fails.  Under the driver `Env.emptyLog`, which behaves as
OpenGL does towards this program (no stage compiled, nothing linked), the
frame loop with one batch holding a quit event issues its `glDrawArrays`
while no program is in use: `glUseProgram` on the program that did not link
has no effect.  So it is not so that at every draw a program is in use that
reached the linked state. -/
theorem draw_without_linked_program :
    ¬ (∀ (env : Env) (batches : List (List SDL_Event)),
        ∀ p ∈ programsAtDraws env GLPrograms.fresh (Episode9.main env batches).world.trace,
          p ≠ 0 ∧ env.glLinkProgram p = true) := by
  intro h
  exact (h Env.emptyLog [[quitEvent]] 0 (by decide)).1 rfl

/-- C8, amended.  For every driver and every sequence of event batches, after
a successful bootstrap and a shader build that returned `program`: the calls
before the loop end with the attachment of the two stage handles (0 for a
stage that failed to compile), `glLinkProgram` and then `glValidateProgram`
on `program`, and no call before them links, uses a program or draws;
`program` is what `gGraphicsPipelineShaderProgram` holds when the loop is
entered; and at every `glDrawArrays` of the process the program in use is
`program` if its link succeeded and none (0) if it failed.  The draw is
issued in both cases: no status is checked. -/
theorem draws_use_linked_program_or_none (env : Env) (batches : List (List SDL_Event))
    (w0 w1 : World) (program : Nat)
    (hboot : Episode9.InitializeProgram env World.init = .ret () w0)
    (hbuild : Episode9.CreateShaderProgram env Episode9.gVertexShaderSource
      Episode9.gFragmentShaderSource (Episode9.VertexSpecification env w0) = .ret program w1) :
    (∃ before,
      w1.trace = before ++
        [.glAttachShader program (compileValue env GL_VERTEX_SHADER),
         .glAttachShader program (compileValue env GL_FRAGMENT_SHADER),
         .glLinkProgram program,
         .glValidateProgram program] ∧
      before.countP isProgramCall = 0) ∧
    (Episode9.CreateGraphicsPipeline env
      (Episode9.VertexSpecification env w0)).world.gGraphicsPipelineShaderProgram = program ∧
    (∀ p ∈ programsAtDraws env GLPrograms.fresh
        (Episode9.MainLoop batches
          (Episode9.CreateGraphicsPipeline env
            (Episode9.VertexSpecification env w0)).world).world.trace,
      p = if env.glLinkProgram program = true then program else 0) ∧
    (programsAtDraws env GLPrograms.fresh
        (Episode9.MainLoop batches
          (Episode9.CreateGraphicsPipeline env
            (Episode9.VertexSpecification env w0)).world).world.trace).length =
      (ranBatches batches).length := by
  have hw0 := ep9_InitializeProgram_ret env w0 hboot
  obtain ⟨hb, hp, hw1⟩ := ep9_build_returned env _ _ _ _ _ hbuild
  have hworld := ep9_setup_world env w0 hb
  obtain ⟨before, hbefore, hnone⟩ := ep9_setup_trace env w0 hboot hb
  subst hp
  have hstate : GLPrograms.fresh.after env
      ((Episode9.VertexSpecification env w0).trace ++
        buildCalls env Episode9.gVertexShaderSource Episode9.gFragmentShaderSource) =
      { linked := if env.glLinkProgram env.glCreateProgram = true then [env.glCreateProgram]
          else [], current := 0 } := by
    rw [hbefore, GLPrograms_after_append, (programCalls_none env _ before hnone).1,
      GLPrograms_after_link]
  have hdraws : programsAtDraws env GLPrograms.fresh
      ((Episode9.VertexSpecification env w0).trace ++
        buildCalls env Episode9.gVertexShaderSource Episode9.gFragmentShaderSource) = [] := by
    rw [hbefore, programsAtDraws_append, (programCalls_none env _ before hnone).1,
      (programCalls_none env _ before hnone).2]
    by_cases h : env.glLinkProgram env.glCreateProgram = true <;>
      simp [programsAtDraws, GLPrograms.apply, GLPrograms.fresh, isDraw, h]
  have htrace : (Episode9.MainLoop batches
      (Episode9.CreateGraphicsPipeline env
        (Episode9.VertexSpecification env w0)).world).world.trace =
      ((Episode9.VertexSpecification env w0).trace ++
        buildCalls env Episode9.gVertexShaderSource Episode9.gFragmentShaderSource) ++
      (ranBatches batches).flatMap (fun batch =>
        pollCalls batch ++ frameCalls w0.gScreenWidth w0.gScreenHeight env.glCreateProgram
          (Episode9.VertexSpecification env w0).gVertexArrayObject
          (Episode9.VertexSpecification env w0).gVertexBufferObject
          w0.gGraphicsApplicationWindow) := by
    rw [ep9_MainLoop_trace _ _ (by rw [hworld, hw0]; rfl), hworld]
    simp [Episode9.VertexSpecification, World.call]
  refine ⟨⟨before, by rw [hw1]; exact hbefore, hnone⟩, by rw [hworld], ?_, ?_⟩
  · intro p hp
    rw [htrace, programsAtDraws_append, hdraws, hstate, List.nil_append] at hp
    have := programsAtDraws_frames env _ rfl _ _ _ _ _ _ _ p hp
    rw [this]
    by_cases h : env.glLinkProgram env.glCreateProgram = true <;> simp [h]
  · rw [htrace, programsAtDraws_append, hdraws, hstate, List.nil_append]
    exact programsAtDraws_frames_length env _ rfl _ _ _ _ _ _ _

/-- The amended property of C8 under the driver that behaves as OpenGL does
towards this program: the build returns program 3 with two zero handles
attached, the link fails, and the one draw of the loop runs with no program
in use. -/
theorem draws_use_linked_program_or_none_witness :
    Episode9.InitializeProgram Env.emptyLog World.init =
      .ret () (Episode9.InitializeProgram Env.emptyLog World.init).world ∧
    Episode9.CreateShaderProgram Env.emptyLog Episode9.gVertexShaderSource
        Episode9.gFragmentShaderSource
        (Episode9.VertexSpecification Env.emptyLog
          (Episode9.InitializeProgram Env.emptyLog World.init).world) =
      .ret 3 (Episode9.CreateShaderProgram Env.emptyLog Episode9.gVertexShaderSource
        Episode9.gFragmentShaderSource
        (Episode9.VertexSpecification Env.emptyLog
          (Episode9.InitializeProgram Env.emptyLog World.init).world)).world ∧
    (∀ p ∈ programsAtDraws Env.emptyLog GLPrograms.fresh
        (Episode9.MainLoop [[quitEvent]]
          (Episode9.CreateGraphicsPipeline Env.emptyLog
            (Episode9.VertexSpecification Env.emptyLog
              (Episode9.InitializeProgram Env.emptyLog World.init).world)).world).world.trace,
      p = if Env.emptyLog.glLinkProgram 3 = true then 3 else 0) :=
  ⟨rfl, rfl,
   (draws_use_linked_program_or_none Env.emptyLog [[quitEvent]]
      (Episode9.InitializeProgram Env.emptyLog World.init).world
      (Episode9.CreateShaderProgram Env.emptyLog Episode9.gVertexShaderSource
        Episode9.gFragmentShaderSource
        (Episode9.VertexSpecification Env.emptyLog
          (Episode9.InitializeProgram Env.emptyLog World.init).world)).world 3 rfl rfl).2.2.1⟩

/-- C9. The vertex shader source declares one input, the `vec4` named
`position`, but the three words whose components `.x`, `.y`, `.z` its body
reads are `postion`, `position`, `position`: the first is not the declared
name and is declared nowhere.  The fragment shader source declares the one
output `vec4 color` and assigns it `vec4(1.0f, 0.5f, 0.0f, 1.0f)`. -/
theorem vertex_shader_reads_undeclared_name :
    declarationsOf "in" Episode9.gVertexShaderSource = [("vec4", "position")] ∧
    componentReadsOf Episode9.gVertexShaderSource = ["postion", "position", "position"] ∧
    "postion" ∉ (declarationsOf "in" Episode9.gVertexShaderSource).map Prod.snd ∧
    declarationsOf "out" Episode9.gFragmentShaderSource = [("vec4", "color")] ∧
    (shaderTokens [] Episode9.gFragmentShaderSource.data).map String.mk =
      ["#", "version", "330", "core", "out", "vec4", "color", ";",
       "void", "main", "(", ")", "\x7b",
       "color", "=", "vec4", "(", "1", ".", "0f", ",", "0", ".", "5f", ",",
       "0", ".", "0f", ",", "1", ".", "0f", ")", ";", "\x7d"] := by
  decide

end MikeShah
